import Mathlib

/-!
Verification of the client-side actor task submitter
(`src/ray/core_worker/transport/direct_actor_task_submitter.cc`).

The C++ operations are shallowly embedded as pure Lean functions over an
explicit `ClientQueue` state.  External collaborators (dependency resolver,
task tracker, transport) are modelled as emitted `Effect` values; decisions
made by collaborators (such as whether `FailOrRetryPendingTask` schedules a
retry) enter the model as oracle arguments carried by the events.  A labelled
step function `step` and its iteration `run` give the trace semantics used by
the trace-level theorems.
-/

namespace RaySubmitter

/-- The actor lifecycle states used by the submitter
(from `rpc::ActorTableData`). -/
inductive ActorState
  | PENDING
  | ALIVE
  | RESTARTING
  | DEAD
deriving DecidableEq, Repr

/-- A worker address (`rpc::Address`): ip, port, worker id, raylet id. -/
structure Address where
  ip_address : String
  port : Nat
  worker_id : String
  raylet_id : String
deriving DecidableEq, Repr

/-- A task specification, restricted to the fields this submitter reads:
task id, actor id, the caller-assigned `actor_counter`, and the mutable
`skip_execution` flag. -/
structure TaskSpecification where
  task_id : Nat
  actor_id : Nat
  actor_counter : Nat
  skip_execution : Bool
deriving DecidableEq, Repr

/-- RPC / transport status, restricted to the classifications the submitter
makes: `ok()`, `IsSchedulingCancelled()`, and everything else (transport
failure, here an I/O error with its message). -/
inductive Status
  | OK
  | IOError (msg : String)
  | SchedulingCancelled (msg : String)
deriving DecidableEq, Repr

/-- `status.ok()`. -/
def Status.isOk : Status → Bool
  | .OK => true
  | _ => false

/-- `status.IsSchedulingCancelled()`. -/
def Status.isSchedulingCancelled : Status → Bool
  | .SchedulingCancelled _ => true
  | _ => false

/-- The error kinds this submitter reports to the task tracker. -/
inductive ErrorType
  | ACTOR_DIED
  | TASK_CANCELLED
  | DEPENDENCY_RESOLUTION_FAILED
  | ACTOR_UNSCHEDULABLE
deriving DecidableEq, Repr

/-- An actor death cause (`rpc::ActorDeathCause`): a oneof of context
messages.  Only the contexts this file inspects or builds are modelled:
the `actor_died_error_context` (carrying `actor_id` and `preempted`, built
by `FailTaskWithError`) and the `oom_context` (whose `fail_immediately`
flag controls non-retryable failure). -/
inductive ActorDeathCause
  | unset
  | actorDiedErrorContext (actor_id : Nat) (preempted : Bool)
  | oomContext (fail_immediately : Bool)
deriving DecidableEq, Repr

/-- `cause.has_oom_context()`. -/
def ActorDeathCause.has_oom_context : ActorDeathCause → Bool
  | .oomContext _ => true
  | _ => false

/-- `cause.oom_context().fail_immediately()` (false when absent). -/
def ActorDeathCause.oom_fail_immediately : ActorDeathCause → Bool
  | .oomContext b => b
  | _ => false

/-- Structured error information (`rpc::RayErrorInfo`) handed to the task
tracker: the error type, the optional attached death cause
(`actor_died_error`), and the message. -/
structure RayErrorInfo where
  error_type : ErrorType
  actor_died_error : Option ActorDeathCause
  error_message : String
deriving DecidableEq, Repr

/-- `info.has_actor_died_error()`. -/
def RayErrorInfo.has_actor_died_error (info : RayErrorInfo) : Bool :=
  info.actor_died_error.isSome

/-- Modelled from the spec: `GetErrorInfoFromActorDeathCause` (defined in
`ray/gcs/pb_util`, not under `src/`) derives the cause-specific error
information from a recorded death cause, propagating the cause itself
(including any OOM context) into `actor_died_error`. -/
def GetErrorInfoFromActorDeathCause (cause : ActorDeathCause) : RayErrorInfo :=
  { error_type := ErrorType.ACTOR_DIED
    actor_died_error := some cause
    error_message := "" }

/-- The `fail_immediatedly` computation repeated at three places in the
source: `info.has_actor_died_error() && info.actor_died_error().has_oom_context()
&& info.actor_died_error().oom_context().fail_immediately()`. -/
def failImmediatelyOf (info : RayErrorInfo) : Bool :=
  info.has_actor_died_error &&
    (match info.actor_died_error with
     | some cause => cause.has_oom_context && cause.oom_fail_immediately
     | none => false)

/-- A staged `rpc::KillActorRequest`, restricted to the two flags the
submitter manipulates. -/
structure KillActorRequest where
  force_kill : Bool
  no_restart : Bool
deriving DecidableEq, Repr

/-- An entry of the per-actor submit queue: the key (`actor_counter`),
the task, and its dependency-resolution flag. -/
structure SubmitEntry where
  counter : Nat
  spec : TaskSpecification
  dependency_resolved : Bool
deriving DecidableEq, Repr

/-- Modelled from the spec: the per-actor submit queue (the
`SequentialActorSubmitQueue` behind `IActorSubmitQueue`, whose
implementation is not under `src/`).  Entries are kept in increasing
`actor_counter` order; `PopNextTaskToSend` yields the head entry once its
dependencies are resolved; completed-out-of-sequence tasks are remembered
for skip-execution replay after a reconnect. -/
structure ActorSubmitQueue where
  entries : List SubmitEntry
  next_task_reply_position : Nat
  out_of_order_completed : List (Nat × TaskSpecification)
deriving DecidableEq, Repr

/-- The empty submit queue. -/
def ActorSubmitQueue.empty : ActorSubmitQueue :=
  { entries := [], next_task_reply_position := 0, out_of_order_completed := [] }

/-- Sorted insertion of an entry keyed by `counter`; `none` on a duplicate
key (the `Emplace` return value that `SubmitTask` asserts on). -/
def insertEntry (e : SubmitEntry) : List SubmitEntry → Option (List SubmitEntry)
  | [] => some [e]
  | x :: xs =>
    if e.counter < x.counter then some (e :: x :: xs)
    else if e.counter = x.counter then none
    else (insertEntry e xs).map (fun l => x :: l)

/-- Modelled from the spec: `Emplace(sequence_no, task_spec)` inserts the
task (dependencies unresolved) at its counter; fails on a duplicate. -/
def ActorSubmitQueue.emplace (q : ActorSubmitQueue) (c : Nat)
    (spec : TaskSpecification) : Option ActorSubmitQueue :=
  (insertEntry { counter := c, spec := spec, dependency_resolved := false } q.entries).map
    (fun l => { q with entries := l })

/-- Modelled from the spec: `Contains(sequence_no)`. -/
def ActorSubmitQueue.containsKey (q : ActorSubmitQueue) (c : Nat) : Bool :=
  q.entries.any (fun e => e.counter == c)

/-- Modelled from the spec: `Get(sequence_no)`, the stored task and its
dependency-resolution flag. -/
def ActorSubmitQueue.get? (q : ActorSubmitQueue) (c : Nat) :
    Option (TaskSpecification × Bool) :=
  (q.entries.find? (fun e => e.counter == c)).map
    (fun e => (e.spec, e.dependency_resolved))

/-- Modelled from the spec: `MarkDependencyResolved(sequence_no)`. -/
def ActorSubmitQueue.markDependencyResolved (q : ActorSubmitQueue) (c : Nat) :
    ActorSubmitQueue :=
  { q with entries :=
      q.entries.map (fun e =>
        if e.counter == c then { e with dependency_resolved := true } else e) }

/-- Modelled from the spec: `MarkDependencyFailed(sequence_no)` removes the
slot from the queue. -/
def ActorSubmitQueue.markDependencyFailed (q : ActorSubmitQueue) (c : Nat) :
    ActorSubmitQueue :=
  { q with entries := q.entries.filter (fun e => ¬ e.counter = c) }

/-- Modelled from the spec: `MarkTaskCanceled(sequence_no)` removes the
slot from the queue. -/
def ActorSubmitQueue.markTaskCanceled (q : ActorSubmitQueue) (c : Nat) :
    ActorSubmitQueue :=
  { q with entries := q.entries.filter (fun e => ¬ e.counter = c) }

/-- Modelled from the spec: `ClearAllTasks()` empties the queue and returns
the task ids of the removed entries. -/
def ActorSubmitQueue.clearAllTasks (q : ActorSubmitQueue) :
    List Nat × ActorSubmitQueue :=
  (q.entries.map (fun e => e.spec.task_id), { q with entries := [] })

/-- Modelled from the spec: the `while PopNextTaskToSend()` drain loop of
`SendPendingTasks`: pops ready (dependency-resolved) entries from the head
until the head is unresolved or the queue is empty. -/
def drainReady : List SubmitEntry → List TaskSpecification × List SubmitEntry
  | [] => ([], [])
  | e :: rest =>
    if e.dependency_resolved then
      let p := drainReady rest
      (e.spec :: p.1, p.2)
    else ([], e :: rest)

/-- Advance the reply cursor through contiguously completed positions,
consuming the matching out-of-order records. -/
def consumeInOrder : Nat → List (Nat × TaskSpecification) →
    Nat × List (Nat × TaskSpecification)
  | n, [] => (n, [])
  | n, (c, s) :: rest =>
    if c = n then consumeInOrder (n + 1) rest else (n, (c, s) :: rest)

/-- Sorted insertion into the out-of-order completion record (first write
wins on a duplicate key). -/
def insertCompleted (p : Nat × TaskSpecification) :
    List (Nat × TaskSpecification) → List (Nat × TaskSpecification)
  | [] => [p]
  | x :: xs =>
    if p.1 < x.1 then p :: x :: xs
    else if p.1 = x.1 then x :: xs
    else x :: insertCompleted p xs

/-- Modelled from the spec: `MarkTaskCompleted(sequence_no, task_spec)`
advances the sequence accounting; a completion beyond the cursor is
remembered so that out-of-order replay can later skip it. -/
def ActorSubmitQueue.markTaskCompleted (q : ActorSubmitQueue) (c : Nat)
    (spec : TaskSpecification) : ActorSubmitQueue :=
  if c = q.next_task_reply_position then
    let p := consumeInOrder (c + 1) q.out_of_order_completed
    { q with next_task_reply_position := p.1, out_of_order_completed := p.2 }
  else
    { q with out_of_order_completed := insertCompleted (c, spec) q.out_of_order_completed }

/-- Modelled from the spec: `PopAllOutOfOrderCompletedTasks()` returns and
clears the out-of-order completion record. -/
def ActorSubmitQueue.popAllOutOfOrderCompletedTasks (q : ActorSubmitQueue) :
    List (Nat × TaskSpecification) × ActorSubmitQueue :=
  (q.out_of_order_completed, { q with out_of_order_completed := [] })

/-- Modelled from the spec: `OnClientConnected()` (a no-op for the
sequential queue variant). -/
def ActorSubmitQueue.onClientConnected (q : ActorSubmitQueue) : ActorSubmitQueue :=
  q

/-- Modelled from the spec: `GetSequenceNumber(task_spec)`, the
transport-level sequence number (the caller-assigned counter in the
sequential variant). -/
def ActorSubmitQueue.getSequenceNumber (_q : ActorSubmitQueue)
    (spec : TaskSpecification) : Nat :=
  spec.actor_counter

/-- A grace-window entry of `wait_for_death_info_tasks`:
`(deadline_ms, (task_spec, status))`. -/
structure DeathInfoEntry where
  deadline_ms : Int
  spec : TaskSpecification
  status : Status
deriving DecidableEq, Repr

/-- The per-actor `ClientQueue`.  Fields up to `preempted` are the C++
members this file reads or writes.  The `ghost_` fields are history
variables for the specification only: they record, in order, the counts
and lists needed to state the accounting invariants, and are never read
by any operation. -/
structure ClientQueue where
  actor_id : Nat
  state : ActorState
  num_restarts : Int
  death_cause : ActorDeathCause
  rpc_client : Option Address
  worker_id : String
  actor_submit_queue : ActorSubmitQueue
  inflight_task_callbacks : List (Nat × TaskSpecification × Address)
  pending_force_kill : Option KillActorRequest
  wait_for_death_info_tasks : List DeathInfoEntry
  cur_pending_calls : Int
  max_pending_calls : Int
  fail_if_actor_unreachable : Bool
  preempted : Bool
  ghost_accepted : Nat
  ghost_replies : Nat
  ghost_parked : List DeathInfoEntry
  ghost_grace_failed : List DeathInfoEntry
deriving DecidableEq, Repr

/-- Modelled from the spec: the fresh `ClientQueue` built by
`AddActorQueueIfNotExists` (constructor in the header, not under `src/`):
initial state PENDING, no restarts yet, empty buffers and counters. -/
def initialQueue (actor_id : Nat) (max_pending_calls : Int)
    (fail_if_actor_unreachable : Bool) : ClientQueue :=
  { actor_id := actor_id
    state := ActorState.PENDING
    num_restarts := 0
    death_cause := ActorDeathCause.unset
    rpc_client := none
    worker_id := ""
    actor_submit_queue := ActorSubmitQueue.empty
    inflight_task_callbacks := []
    pending_force_kill := none
    wait_for_death_info_tasks := []
    cur_pending_calls := 0
    max_pending_calls := max_pending_calls
    fail_if_actor_unreachable := fail_if_actor_unreachable
    preempted := false
    ghost_accepted := 0
    ghost_replies := 0
    ghost_parked := []
    ghost_grace_failed := [] }

/-- The configuration the submitter reads (`RayConfig`). -/
structure SubmitterConfig where
  timeout_ms_task_wait_for_death_info : Int
deriving DecidableEq, Repr

/-- Calls this core makes on its external collaborators (task tracker,
dependency resolver, transport, client pool), in invocation order. -/
inductive Effect
  | pushActorTask (spec : TaskSpecification) (skip_queue : Bool) (sequence_number : Nat)
  | markTaskWaitingForExecution (task_id : Nat)
  | markTaskCanceled (task_id : Nat)
  | markDependenciesResolved (task_id : Nat)
  | resolveDependencies (task_id : Nat)
  | completePendingTask (task_id : Nat) (is_application_error : Bool)
  | failOrRetryPendingTask (task_id : Nat) (error_type : ErrorType)
      (status : Option Status) (error_info : Option RayErrorInfo)
      (mark_task_object_failed : Bool) (fail_immediately : Bool)
  | failPendingTask (task_id : Nat) (error_type : ErrorType)
      (status : Option Status) (error_info : Option RayErrorInfo)
  | cancelDependencyResolution (task_id : Nat)
  | killActorRpc (request : KillActorRequest)
  | poolDisconnect (worker_id : String)
  | cancelTaskRpc (task_id : Nat)
  | scheduleRetryCancel (task_id : Nat) (delay_ms : Nat)
deriving DecidableEq, Repr

/-- An all-empty address, used only as the (unreachable) default when the
client handle is read while absent. -/
def Address.nil : Address :=
  { ip_address := "", port := 0, worker_id := "", raylet_id := "" }

/-- `HandlePushTaskReply(status, reply, addr, task_spec)`.  The reply is
classified as a skip-execution acknowledgement, a success, a scheduler-side
cancellation, or a transport failure; the final block unconditionally
notifies the submit queue of completion (unless a retry was chosen) and
decrements `cur_pending_calls`.  `oracle_will_retry` models the boolean
returned by the tracker's `FailOrRetryPendingTask`. -/
def HandlePushTaskReply (cfg : SubmitterConfig) (now : Int) (status : Status)
    (is_application_error : Bool) (task_spec : TaskSpecification)
    (oracle_will_retry : Bool) (q : ClientQueue) : ClientQueue × List Effect :=
  let task_id := task_spec.task_id
  let actor_counter := task_spec.actor_counter
  let task_skipped := task_spec.skip_execution
  let branch : ClientQueue × List Effect × Bool :=
    if task_skipped then
      (q, [], false)
    else if status.isOk then
      (q, [Effect.completePendingTask task_id is_application_error], false)
    else if status.isSchedulingCancelled then
      let error_info : RayErrorInfo :=
        { error_type := ErrorType.TASK_CANCELLED
          actor_died_error := none
          error_message := "canceled before it executes" }
      (q, [Effect.failPendingTask task_id ErrorType.TASK_CANCELLED none (some error_info)],
       false)
    else
      let is_actor_dead : Bool := q.state == ActorState.DEAD
      let error_info := GetErrorInfoFromActorDeathCause q.death_cause
      let error_type := error_info.error_type
      let fail_immediatedly := failImmediatelyOf error_info
      let effs :=
        [Effect.cancelDependencyResolution task_id,
         Effect.failOrRetryPendingTask task_id error_type (some status) (some error_info)
           is_actor_dead fail_immediatedly]
      let will_retry := oracle_will_retry
      if !is_actor_dead && !will_retry then
        if cfg.timeout_ms_task_wait_for_death_info ≠ 0 then
          let entry : DeathInfoEntry :=
            { deadline_ms := now + cfg.timeout_ms_task_wait_for_death_info
              spec := task_spec
              status := status }
          ({ q with
              wait_for_death_info_tasks := q.wait_for_death_info_tasks ++ [entry]
              ghost_parked := q.ghost_parked ++ [entry] },
           effs, will_retry)
        else
          (q, effs ++ [Effect.failPendingTask task_id ErrorType.ACTOR_DIED (some status) none],
           will_retry)
      else (q, effs, will_retry)
  let q1 := branch.1
  let effs := branch.2.1
  let will_retry := branch.2.2
  let q2 :=
    if will_retry then q1
    else { q1 with
        actor_submit_queue := q1.actor_submit_queue.markTaskCompleted actor_counter task_spec }
  ({ q2 with
      cur_pending_calls := q2.cur_pending_calls - 1
      ghost_replies := q2.ghost_replies + 1 },
   effs)

/-- `PushActorTask(queue, task_spec, skip_queue)`: registers the reply
callback in `inflight_task_callbacks` (a hash map keyed by task id, so a
duplicate emplace is a no-op), informs the tracker the task is awaiting
execution and hands the request, with its sequence number, to the
transport.  The excess-queueing warning is an external log hook and is not
modelled. -/
def PushActorTask (q : ClientQueue) (task_spec : TaskSpecification)
    (skip_queue : Bool) : ClientQueue × List Effect :=
  let task_id := task_spec.task_id
  let seq := q.actor_submit_queue.getSequenceNumber task_spec
  let addr := q.rpc_client.getD Address.nil
  let inflight :=
    if q.inflight_task_callbacks.any (fun e => e.1 == task_id) then
      q.inflight_task_callbacks
    else q.inflight_task_callbacks ++ [(task_id, task_spec, addr)]
  ({ q with inflight_task_callbacks := inflight },
   [Effect.markTaskWaitingForExecution task_id,
    Effect.pushActorTask task_spec skip_queue seq])

/-- Push a list of `(task, skip_queue)` pairs in order. -/
def pushTasks : ClientQueue → List (TaskSpecification × Bool) → ClientQueue × List Effect
  | q, [] => (q, [])
  | q, (spec, skip) :: rest =>
    let p := PushActorTask q spec skip
    let r := pushTasks p.1 rest
    (r.1, p.2 ++ r.2)

/-- Fold `HandlePushTaskReply` with a fixed failure status over a list of
tasks, in order (the source posts these invocations; they are folded in
here in posting order).  Each invocation consumes one oracle entry. -/
def handleFailedReplies (cfg : SubmitterConfig) (now : Int) (status : Status) :
    ClientQueue → List TaskSpecification → List Bool → ClientQueue × List Effect
  | q, [], _ => (q, [])
  | q, spec :: rest, oracles =>
    let p := HandlePushTaskReply cfg now status false spec (oracles.headD false) q
    let r := handleFailedReplies cfg now status p.1 rest oracles.tail
    (r.1, p.2 ++ r.2)

/-- `SendPendingTasks(actor_id)` (lock held).  With no client: in
RESTARTING with `fail_if_actor_unreachable`, ready tasks are popped and
failed through synthesized I/O-error replies; otherwise return.  With a
client: flush any staged kill request, then push every ready task. -/
def SendPendingTasks (cfg : SubmitterConfig) (now : Int) (oracles : List Bool)
    (q : ClientQueue) : ClientQueue × List Effect :=
  match q.rpc_client with
  | none =>
    if q.state == ActorState.RESTARTING && q.fail_if_actor_unreachable then
      let p := drainReady q.actor_submit_queue.entries
      handleFailedReplies cfg now (Status.IOError "The actor is temporarily unavailable.")
        { q with actor_submit_queue := { q.actor_submit_queue with entries := p.2 } }
        p.1 oracles
    else (q, [])
  | some _ =>
    let killStep : ClientQueue × List Effect :=
      match q.pending_force_kill with
      | some request => ({ q with pending_force_kill := none }, [Effect.killActorRpc request])
      | none => (q, [])
    let p := drainReady killStep.1.actor_submit_queue.entries
    let q1 := { killStep.1 with
        actor_submit_queue := { killStep.1.actor_submit_queue with entries := p.2 } }
    let r := pushTasks q1 (p.1.map (fun s => (s, false)))
    (r.1, killStep.2 ++ r.2)

/-- `ResendOutOfOrderTasks(actor_id)` (lock held): pop the tasks that
completed out of sequence on the previous incarnation and re-push a copy
of each with `skip_execution = true` and `skip_queue = true`. -/
def ResendOutOfOrderTasks (q : ClientQueue) : ClientQueue × List Effect :=
  match q.rpc_client with
  | none => (q, [])
  | some _ =>
    let p := q.actor_submit_queue.popAllOutOfOrderCompletedTasks
    let q1 := { q with actor_submit_queue := p.2 }
    pushTasks q1 (p.1.map (fun ct => ({ ct.2 with skip_execution := true }, true)))

/-- `DisconnectRpcClient(queue)`: release the transport handle, return the
pool entry, clear the intended worker id, discard any staged kill. -/
def DisconnectRpcClient (q : ClientQueue) : ClientQueue × List Effect :=
  ({ q with rpc_client := none, worker_id := "", pending_force_kill := none },
   [Effect.poolDisconnect q.worker_id])

/-- Whether a held client's address matches an incoming address on ip and
port (the "same endpoint" test of `ConnectActor`). -/
def sameEndpoint : Option Address → Address → Bool
  | none, _ => false
  | some c, addr => c.ip_address == addr.ip_address && c.port == addr.port

/-- `ConnectActor(actor_id, address, num_restarts)`.  Stale notifications
(`num_restarts` strictly below the recorded value), equal-endpoint
reconnects, and DEAD actors are dropped; otherwise the restart count is
recorded, any previous client is disconnected and its in-flight replies
are moved aside, the queue goes ALIVE on the new client, out-of-order
completions are replayed and then pending tasks dispatched; finally the
moved-aside replies are failed with an I/O error outside the lock. -/
def ConnectActor (cfg : SubmitterConfig) (now : Int) (addr : Address)
    (num_restarts : Int) (oracles : List Bool) (q : ClientQueue) :
    ClientQueue × List Effect :=
  if num_restarts < q.num_restarts then (q, [])
  else if sameEndpoint q.rpc_client addr then (q, [])
  else if q.state == ActorState.DEAD then (q, [])
  else
    let q0 := { q with num_restarts := num_restarts }
    let disc : ClientQueue × List Effect × List (Nat × TaskSpecification × Address) :=
      if q0.rpc_client.isSome then
        let d := DisconnectRpcClient q0
        ({ d.1 with inflight_task_callbacks := [] }, d.2, q0.inflight_task_callbacks)
      else (q0, [], [])
    let q1 := { disc.1 with
        state := ActorState.ALIVE
        worker_id := addr.worker_id
        rpc_client := some addr
        actor_submit_queue := disc.1.actor_submit_queue.onClientConnected }
    let r1 := ResendOutOfOrderTasks q1
    let r2 := SendPendingTasks cfg now [] r1.1
    let r3 := handleFailedReplies cfg now
        (Status.IOError "Fail all inflight tasks due to actor state change.") r2.1
        (disc.2.2.map (fun e => e.2.1)) oracles
    (r3.1, disc.2.1 ++ r1.2 ++ r2.2 ++ r3.2)

/-- `DisconnectActor(actor_id, num_restarts, dead, death_cause)`.  The
`RAY_CHECK(num_restarts > 0)` for non-dead notifications is modelled as a
stuck no-op; stale non-dead notifications are dropped.  Otherwise the
client is released and in-flight replies are moved aside; a dead
notification records DEAD and the cause, drains the submit queue and the
grace-window deque, and fails all of them outside the lock; a non-dead
notification moves a not-yet-DEAD queue to RESTARTING. -/
def DisconnectActor (cfg : SubmitterConfig) (now : Int) (num_restarts : Int)
    (dead : Bool) (death_cause : ActorDeathCause) (oracles : List Bool)
    (q : ClientQueue) : ClientQueue × List Effect :=
  if ¬ dead ∧ num_restarts ≤ 0 then (q, [])
  else if num_restarts ≤ q.num_restarts ∧ ¬ dead then (q, [])
  else
    let moved := q.inflight_task_callbacks
    let d := DisconnectRpcClient q
    let q1 := { d.1 with inflight_task_callbacks := [] }
    let failStatus := Status.IOError "Fail all inflight tasks due to actor state change."
    if dead then
      let c := q1.actor_submit_queue.clearAllTasks
      let movedWait := q1.wait_for_death_info_tasks
      let q2 := { q1 with
          state := ActorState.DEAD
          death_cause := death_cause
          actor_submit_queue := c.2
          wait_for_death_info_tasks := []
          ghost_grace_failed := q1.ghost_grace_failed ++ movedWait }
      let status := Status.IOError "cancelling all pending tasks of dead actor"
      let error_info := GetErrorInfoFromActorDeathCause death_cause
      let error_type := error_info.error_type
      let fail_immediatedly := failImmediatelyOf error_info
      let failQueued := c.1.flatMap (fun task_id =>
        [Effect.markTaskCanceled task_id,
         Effect.cancelDependencyResolution task_id,
         Effect.failOrRetryPendingTask task_id error_type (some status) (some error_info)
           true fail_immediatedly])
      let failWaiting := movedWait.map (fun e =>
        Effect.failPendingTask e.spec.task_id error_type (some e.status) (some error_info))
      let r := handleFailedReplies cfg now failStatus q2 (moved.map (fun e => e.2.1)) oracles
      (r.1, d.2 ++ failQueued ++ failWaiting ++ r.2)
    else
      let q2 :=
        if q1.state == ActorState.DEAD then q1
        else { q1 with state := ActorState.RESTARTING, num_restarts := num_restarts }
      let r := handleFailedReplies cfg now failStatus q2 (moved.map (fun e => e.2.1)) oracles
      (r.1, d.2 ++ r.2)

/-- `KillActor(actor_id, force_kill, no_restart)`: stage the request (a
repeat call escalates only when the new `force_kill` is true, then also
raising `no_restart` if newly requested), then flush via
`SendPendingTasks`. -/
def KillActor (cfg : SubmitterConfig) (now : Int) (force_kill no_restart : Bool)
    (oracles : List Bool) (q : ClientQueue) : ClientQueue × List Effect :=
  let q1 :=
    match q.pending_force_kill with
    | none =>
      { q with pending_force_kill := some (KillActorRequest.mk force_kill no_restart) }
    | some prev =>
      if force_kill then
        let merged := KillActorRequest.mk true (prev.no_restart || no_restart)
        { q with pending_force_kill := some merged }
      else q
  SendPendingTasks cfg now oracles q1

/-- `SubmitTask(task_spec)`.  A live queue accepts the task at its counter
and asks for dependency resolution (the duplicate-counter `RAY_CHECK` is
modelled as a stuck no-op); on a DEAD queue the task is marked canceled in
the tracker and failed with the recorded death cause.  Always returns OK. -/
def SubmitTask (spec : TaskSpecification) (q : ClientQueue) :
    ClientQueue × List Effect × Status :=
  if ¬ q.state = ActorState.DEAD then
    match q.actor_submit_queue.emplace spec.actor_counter spec with
    | some sq =>
      ({ q with
          actor_submit_queue := sq
          cur_pending_calls := q.cur_pending_calls + 1
          ghost_accepted := q.ghost_accepted + 1 },
       [Effect.resolveDependencies spec.task_id], Status.OK)
    | none => (q, [], Status.OK)
  else
    let error_info := GetErrorInfoFromActorDeathCause q.death_cause
    let error_type := error_info.error_type
    let status := Status.IOError "cancelling task of dead actor"
    let fail_immediatedly := failImmediatelyOf error_info
    (q,
     [Effect.markTaskCanceled spec.task_id,
      Effect.failOrRetryPendingTask spec.task_id error_type (some status) (some error_info)
        true fail_immediatedly],
     Status.OK)

/-- The dependency-resolution completion callback scheduled by
`SubmitTask`: informs the tracker dependencies are resolved; if the slot
is still queued, on success marks it resolved and dispatches, on failure
removes it and reports `DEPENDENCY_RESOLUTION_FAILED`. -/
def HandleDependencyResolution (cfg : SubmitterConfig) (now : Int)
    (send_pos task_id : Nat) (status : Status) (oracles : List Bool)
    (q : ClientQueue) : ClientQueue × List Effect :=
  let effs0 := [Effect.markDependenciesResolved task_id]
  if q.actor_submit_queue.containsKey send_pos then
    if status.isOk then
      let r := SendPendingTasks cfg now oracles
        { q with actor_submit_queue := q.actor_submit_queue.markDependencyResolved send_pos }
      (r.1, effs0 ++ r.2)
    else
      ({ q with actor_submit_queue := q.actor_submit_queue.markDependencyFailed send_pos },
       effs0 ++ [Effect.failOrRetryPendingTask task_id
         ErrorType.DEPENDENCY_RESOLUTION_FAILED (some status) none true false])
  else (q, effs0)

/-- The wrapped transport reply callback registered by `PushActorTask`:
a reply for a task no longer in `inflight_task_callbacks` (already failed
across a reconnect) is ignored; otherwise the entry is erased and the
inner reply callback (`HandlePushTaskReply`) runs. -/
def DeliverReply (cfg : SubmitterConfig) (now : Int) (task_id : Nat)
    (status : Status) (is_application_error : Bool) (oracle_will_retry : Bool)
    (q : ClientQueue) : ClientQueue × List Effect :=
  match q.inflight_task_callbacks.find? (fun e => e.1 == task_id) with
  | none => (q, [])
  | some entry =>
    HandlePushTaskReply cfg now status is_application_error entry.2.1 oracle_will_retry
      { q with inflight_task_callbacks :=
          q.inflight_task_callbacks.eraseP (fun e => e.1 == task_id) }

/-- `CancelTask(task_spec, recursive)`.  `newly_canceled` models the
return of the tracker's `MarkTaskCanceled` (whether this call newly
canceled the task); cancel RPCs and their retry scheduling are emitted as
effects. -/
def CancelTask (spec : TaskSpecification) (newly_canceled : Bool)
    (q : ClientQueue) : ClientQueue × List Effect × Status :=
  let send_pos := spec.actor_counter
  let task_id := spec.task_id
  let effs0 := [Effect.markTaskCanceled task_id]
  if ¬ newly_canceled then (q, effs0, Status.OK)
  else if q.state == ActorState.DEAD then (q, effs0, Status.OK)
  else
    let task_queued := q.actor_submit_queue.containsKey send_pos
    if task_queued then
      let dep_resolved := ((q.actor_submit_queue.get? send_pos).map (fun p => p.2)).getD false
      let cancelDep :=
        if dep_resolved then [] else [Effect.cancelDependencyResolution task_id]
      let error_info : RayErrorInfo :=
        { error_type := ErrorType.TASK_CANCELLED
          actor_died_error := none
          error_message := "canceled before it executes" }
      ({ q with actor_submit_queue := q.actor_submit_queue.markTaskCanceled send_pos },
       effs0 ++ cancelDep ++
         [Effect.failOrRetryPendingTask task_id ErrorType.TASK_CANCELLED none
           (some error_info) true false],
       Status.OK)
    else
      match q.rpc_client with
      | none => (q, effs0 ++ [Effect.scheduleRetryCancel task_id 1000], Status.OK)
      | some _ => (q, effs0 ++ [Effect.cancelTaskRpc task_id], Status.OK)

/-- The task info collected by the timeout sweep. -/
structure TaskInfo where
  specification : TaskSpecification
  status : Status
  actor_id : Nat
  preempted : Bool
deriving DecidableEq, Repr

/-- `FailTaskWithError(task_info)`: synthesize an `ACTOR_DIED` death cause
carrying the actor id and preemption flag, and fail the task with it. -/
def FailTaskWithError (t : TaskInfo) : Effect :=
  let actor_death_cause := ActorDeathCause.actorDiedErrorContext t.actor_id t.preempted
  let error_info : RayErrorInfo :=
    { error_type := ErrorType.ACTOR_DIED
      actor_died_error := some actor_death_cause
      error_message := "Actor died." }
  Effect.failPendingTask t.specification.task_id ErrorType.ACTOR_DIED (some t.status)
    (some error_info)

/-- The per-queue body of `CheckTimeoutTasks`: erase from the front of
`wait_for_death_info_tasks` the entries whose deadline has passed
(strictly: `deadline < now`), collecting a `TaskInfo` for each. -/
def sweepQueue (now : Int) (q : ClientQueue) : ClientQueue × List TaskInfo :=
  let expired := q.wait_for_death_info_tasks.takeWhile (fun e => e.deadline_ms < now)
  ({ q with
      wait_for_death_info_tasks :=
        q.wait_for_death_info_tasks.dropWhile (fun e => e.deadline_ms < now)
      ghost_grace_failed := q.ghost_grace_failed ++ expired },
   expired.map (fun e =>
     { specification := e.spec, status := e.status
       actor_id := q.actor_id, preempted := q.preempted }))

/-- `CheckTimeoutTasks()` over the whole registry: collect expired entries
from every queue under the lock, then fail them outside the lock. -/
def CheckTimeoutTasks (now : Int) (qs : List ClientQueue) :
    List ClientQueue × List Effect :=
  (qs.map (fun q => (sweepQueue now q).1),
   (qs.flatMap (fun q => (sweepQueue now q).2)).map FailTaskWithError)

/-- External stimuli driving one actor's queue.  Oracle arguments model
collaborator decisions: the `oracles` lists supply, in order, the retry
decisions returned by `FailOrRetryPendingTask` for failure replies folded
into the call; `will_retry` is that decision for a single transport reply;
`newly_canceled` models the return of the tracker's `MarkTaskCanceled`. -/
inductive Event
  | submit (spec : TaskSpecification)
  | resolve (send_pos task_id : Nat) (status : Status) (now : Int) (oracles : List Bool)
  | connect (addr : Address) (num_restarts : Int) (now : Int) (oracles : List Bool)
  | disconnect (num_restarts : Int) (dead : Bool) (death_cause : ActorDeathCause)
      (now : Int) (oracles : List Bool)
  | reply (task_id : Nat) (status : Status) (is_application_error : Bool)
      (will_retry : Bool) (now : Int)
  | kill (force_kill no_restart : Bool) (now : Int) (oracles : List Bool)
  | cancel (spec : TaskSpecification) (newly_canceled : Bool)
  | sweep (now : Int)
deriving Repr

/-- One labelled transition of the queue. -/
def step (cfg : SubmitterConfig) (q : ClientQueue) : Event → ClientQueue × List Effect
  | .submit spec =>
    let r := SubmitTask spec q
    (r.1, r.2.1)
  | .resolve send_pos task_id status now oracles =>
    HandleDependencyResolution cfg now send_pos task_id status oracles q
  | .connect addr num_restarts now oracles =>
    ConnectActor cfg now addr num_restarts oracles q
  | .disconnect num_restarts dead cause now oracles =>
    DisconnectActor cfg now num_restarts dead cause oracles q
  | .reply task_id status is_application_error will_retry now =>
    DeliverReply cfg now task_id status is_application_error will_retry q
  | .kill force_kill no_restart now oracles =>
    KillActor cfg now force_kill no_restart oracles q
  | .cancel spec newly_canceled =>
    let r := CancelTask spec newly_canceled q
    (r.1, r.2.1)
  | .sweep now =>
    let s := sweepQueue now q
    (s.1, s.2.map FailTaskWithError)

/-- Iterate `step` over an event trace, accumulating emitted effects. -/
def run (cfg : SubmitterConfig) : ClientQueue → List Event → ClientQueue × List Effect
  | q, [] => (q, [])
  | q, e :: es =>
    let p := step cfg q e
    let r := run cfg p.1 es
    (r.1, p.2 ++ r.2)

/-- The fields of a `ClientQueue` left untouched by the reply handler, the
dispatch loops, and their compositions: everything except the submit
queue, the in-flight map, the staged kill, the grace-window deque, the
pending-call counter, and their history variables. -/
def CoreFieldsEq (r q : ClientQueue) : Prop :=
  r.state = q.state ∧ r.rpc_client = q.rpc_client ∧ r.num_restarts = q.num_restarts ∧
  r.death_cause = q.death_cause ∧ r.worker_id = q.worker_id ∧ r.actor_id = q.actor_id ∧
  r.preempted = q.preempted ∧ r.fail_if_actor_unreachable = q.fail_if_actor_unreachable ∧
  r.max_pending_calls = q.max_pending_calls ∧ r.ghost_accepted = q.ghost_accepted

/-- The conserved pending-call balance: `cur_pending_calls` plus the
number of replies handled minus the number of accepted submissions.
Every operation preserves it. -/
def pendingBalance (q : ClientQueue) : Int :=
  q.cur_pending_calls + (q.ghost_replies : Int) - (q.ghost_accepted : Int)

/-- The grace-window accounting invariant: the history of entries ever
parked equals the history of entries already handed to the tracker's
failure path followed by the entries still in the deque. -/
def parkedInvariant (q : ClientQueue) : Prop :=
  q.ghost_parked = q.ghost_grace_failed ++ q.wait_for_death_info_tasks

/-- The counter a `PushActorTask` effect delivers to the actor, when the
push is not a skip-execution acknowledgement. -/
def deliveredCounter (s : TaskSpecification) : Option Nat :=
  if s.skip_execution then none else some s.actor_counter

/-- The sequence of `actor_counter` values handed to the transport,
excluding skip-execution pushes. -/
def pushedCounters (effs : List Effect) : List Nat :=
  effs.filterMap (fun e =>
    match e with
    | Effect.pushActorTask spec _ _ => deliveredCounter spec
    | _ => none)

/-- The keys currently queued in the submit queue, in queue order. -/
def entryCounters (q : ClientQueue) : List Nat :=
  q.actor_submit_queue.entries.map (fun e => e.counter)

/-- The sequence of `actor_counter` values passed to `SubmitTask` in a
trace. -/
def submittedCounters (es : List Event) : List Nat :=
  es.filterMap (fun e =>
    match e with
    | Event.submit spec => some spec.actor_counter
    | _ => none)

/-- Every queued entry is keyed by its own task's `actor_counter` (true of
every entry `SubmitTask` inserts). -/
def entriesConsistent (q : ClientQueue) : Prop :=
  ∀ e ∈ q.actor_submit_queue.entries, e.counter = e.spec.actor_counter

/-- Configuration with the grace window disabled. -/
def cfg0 : SubmitterConfig := SubmitterConfig.mk 0

/-- Configuration with a 1000 ms grace window. -/
def cfgGrace : SubmitterConfig := SubmitterConfig.mk 1000

def addrA : Address := Address.mk "ip1" 10 "w1" "n1"

/-- Same endpoint as `addrA` (ip and port) on a different worker. -/
def addrB : Address := Address.mk "ip1" 10 "w2" "n2"

def specT1 : TaskSpecification := TaskSpecification.mk 1 7 0 false

def specT2 : TaskSpecification := TaskSpecification.mk 2 7 1 false

/-- A queue whose actor died of OOM with `fail_immediately` set. -/
def qDeadOom : ClientQueue :=
  { initialQueue 7 8 false with
      state := ActorState.DEAD
      death_cause := ActorDeathCause.oomContext true }

/-- A queue observed mid-restart: `DisconnectActor(1, dead=false)` has been
processed, no client yet. -/
def qRestarting1 : ClientQueue :=
  { initialQueue 7 8 false with
      state := ActorState.RESTARTING
      num_restarts := 1 }

/-- A queue holding a live client at `addrA`. -/
def qConnected : ClientQueue :=
  { initialQueue 7 8 false with
      state := ActorState.ALIVE
      rpc_client := some addrA
      worker_id := "w1" }

/-- A queue with a staged non-force kill request. -/
def qStagedKill : ClientQueue :=
  { initialQueue 7 8 false with
      pending_force_kill := some (KillActorRequest.mk false false) }

/-- A queue with one grace-window entry whose deadline is 5 ms. -/
def qGrace5 : ClientQueue :=
  { initialQueue 7 8 false with
      wait_for_death_info_tasks := [DeathInfoEntry.mk 5 specT1 (Status.IOError "net")] }

/-- The reconnect-replay trace refuting C2 as stated: T1 (counter 0) and
T2 (counter 1) are submitted and dispatched; T2's reply arrives first, so
it is recorded as completed out of sequence; a restart fails T1's
in-flight reply and the tracker chooses a retry, after which T1 is
resubmitted; the reconnect replays T2 as a skip-execution push; the skip
reply and T1's completion then both decrement the pending-call counter. -/
def esC2 : List Event :=
  [Event.submit specT1, Event.submit specT2,
   Event.resolve 0 1 Status.OK 0 [],
   Event.resolve 1 2 Status.OK 0 [],
   Event.connect addrA 0 0 [],
   Event.reply 2 Status.OK false false 0,
   Event.disconnect 1 false ActorDeathCause.unset 0 [true],
   Event.submit specT1,
   Event.resolve 0 1 Status.OK 0 [],
   Event.connect addrA 1 0 [],
   Event.reply 2 Status.OK false false 0,
   Event.reply 1 Status.OK false false 0]

/-- An order-preservation trace: two submissions resolve in reverse order
before the first connect, after which both are dispatched. -/
def esC1 : List Event :=
  [Event.submit specT1, Event.submit specT2,
   Event.resolve 1 2 Status.OK 0 [],
   Event.resolve 0 1 Status.OK 0 [],
   Event.connect addrA 0 0 []]

/-! ## Frame lemmas

Each operation touches only a few fields of the `ClientQueue`; the lemmas
below record the shape of the result, so that preservation of the
remaining fields is available by rewriting. -/

theorem markTaskCompleted_entries (q : ActorSubmitQueue) (c : Nat)
    (s : TaskSpecification) : (q.markTaskCompleted c s).entries = q.entries := by
  unfold ActorSubmitQueue.markTaskCompleted
  split <;> rfl

theorem handleReply_frame (cfg : SubmitterConfig) (now : Int) (status : Status)
    (iae : Bool) (spec : TaskSpecification) (wr : Bool) (q : ClientQueue) :
    ∃ a w c r p,
      (HandlePushTaskReply cfg now status iae spec wr q).1 =
        { q with
            actor_submit_queue := a
            wait_for_death_info_tasks := w
            cur_pending_calls := c
            ghost_replies := r
            ghost_parked := p } ∧
      a.entries = q.actor_submit_queue.entries := by
  simp only [HandlePushTaskReply]
  split_ifs <;>
    exact ⟨_, _, _, _, _, rfl, by simp [markTaskCompleted_entries]⟩

theorem pushActorTask_frame (q : ClientQueue) (spec : TaskSpecification) (b : Bool) :
    ∃ i, (PushActorTask q spec b).1 = { q with inflight_task_callbacks := i } :=
  ⟨_, rfl⟩

theorem pushTasks_frame (ts : List (TaskSpecification × Bool)) :
    ∀ q : ClientQueue, ∃ i, (pushTasks q ts).1 = { q with inflight_task_callbacks := i } := by
  induction ts with
  | nil => exact fun q => ⟨q.inflight_task_callbacks, rfl⟩
  | cons t rest ih =>
    intro q
    obtain ⟨s, k⟩ := t
    obtain ⟨i1, h1⟩ := pushActorTask_frame q s k
    obtain ⟨i2, h2⟩ := ih (PushActorTask q s k).1
    refine ⟨i2, ?_⟩
    show (pushTasks (PushActorTask q s k).1 rest).1 = _
    rw [h2, h1]

theorem handleFailedReplies_frame (cfg : SubmitterConfig) (now : Int) (st : Status)
    (ts : List TaskSpecification) :
    ∀ (os : List Bool) (q : ClientQueue), ∃ a w c r p,
      (handleFailedReplies cfg now st q ts os).1 =
        { q with
            actor_submit_queue := a
            wait_for_death_info_tasks := w
            cur_pending_calls := c
            ghost_replies := r
            ghost_parked := p } ∧
      a.entries = q.actor_submit_queue.entries := by
  induction ts with
  | nil =>
    intro os q
    exact ⟨q.actor_submit_queue, q.wait_for_death_info_tasks, q.cur_pending_calls,
      q.ghost_replies, q.ghost_parked, rfl, rfl⟩
  | cons s rest ih =>
    intro os q
    obtain ⟨a1, w1, c1, r1, p1, h1, he1⟩ :=
      handleReply_frame cfg now st false s (os.headD false) q
    obtain ⟨a2, w2, c2, r2, p2, h2, he2⟩ :=
      ih os.tail (HandlePushTaskReply cfg now st false s (os.headD false) q).1
    refine ⟨a2, w2, c2, r2, p2, ?_, ?_⟩
    · show (handleFailedReplies cfg now st
        (HandlePushTaskReply cfg now st false s (os.headD false) q).1 rest os.tail).1 = _
      rw [h2, h1]
    · rw [he2, h1]
      exact he1

theorem sendPendingTasks_no_client_fail (cfg : SubmitterConfig) (now : Int)
    (os : List Bool) (q : ClientQueue) (hc : q.rpc_client = none)
    (hr : (q.state == ActorState.RESTARTING && q.fail_if_actor_unreachable) = true) :
    SendPendingTasks cfg now os q =
      handleFailedReplies cfg now (Status.IOError "The actor is temporarily unavailable.")
        { q with actor_submit_queue :=
            { q.actor_submit_queue with entries := (drainReady q.actor_submit_queue.entries).2 } }
        (drainReady q.actor_submit_queue.entries).1 os := by
  simp [SendPendingTasks, hc, hr]

theorem sendPendingTasks_no_client_idle (cfg : SubmitterConfig) (now : Int)
    (os : List Bool) (q : ClientQueue) (hc : q.rpc_client = none)
    (hr : (q.state == ActorState.RESTARTING && q.fail_if_actor_unreachable) = false) :
    SendPendingTasks cfg now os q = (q, []) := by
  simp [SendPendingTasks, hc, hr]

theorem sendPendingTasks_client_kill (cfg : SubmitterConfig) (now : Int)
    (os : List Bool) (q : ClientQueue) (addr : Address) (request : KillActorRequest)
    (hc : q.rpc_client = some addr) (hk : q.pending_force_kill = some request) :
    SendPendingTasks cfg now os q =
      ((pushTasks
          { q with
              pending_force_kill := none
              actor_submit_queue :=
                { q.actor_submit_queue with
                    entries := (drainReady q.actor_submit_queue.entries).2 } }
          ((drainReady q.actor_submit_queue.entries).1.map (fun s => (s, false)))).1,
       Effect.killActorRpc request ::
         (pushTasks
            { q with
                pending_force_kill := none
                actor_submit_queue :=
                  { q.actor_submit_queue with
                      entries := (drainReady q.actor_submit_queue.entries).2 } }
            ((drainReady q.actor_submit_queue.entries).1.map (fun s => (s, false)))).2) := by
  simp [SendPendingTasks, hc, hk]

theorem sendPendingTasks_client_nokill (cfg : SubmitterConfig) (now : Int)
    (os : List Bool) (q : ClientQueue) (addr : Address)
    (hc : q.rpc_client = some addr) (hk : q.pending_force_kill = none) :
    SendPendingTasks cfg now os q =
      pushTasks
        { q with actor_submit_queue :=
            { q.actor_submit_queue with entries := (drainReady q.actor_submit_queue.entries).2 } }
        ((drainReady q.actor_submit_queue.entries).1.map (fun s => (s, false))) := by
  simp [SendPendingTasks, hc, hk]

theorem coreFieldsEq_refl (q : ClientQueue) : CoreFieldsEq q q :=
  ⟨rfl, rfl, rfl, rfl, rfl, rfl, rfl, rfl, rfl, rfl⟩

theorem coreFieldsEq_trans {a b c : ClientQueue} (h1 : CoreFieldsEq a b)
    (h2 : CoreFieldsEq b c) : CoreFieldsEq a c := by
  obtain ⟨e1, e2, e3, e4, e5, e6, e7, e8, e9, e10⟩ := h1
  obtain ⟨f1, f2, f3, f4, f5, f6, f7, f8, f9, f10⟩ := h2
  exact ⟨e1.trans f1, e2.trans f2, e3.trans f3, e4.trans f4, e5.trans f5,
    e6.trans f6, e7.trans f7, e8.trans f8, e9.trans f9, e10.trans f10⟩

theorem handleReply_core (cfg : SubmitterConfig) (now : Int) (status : Status)
    (iae : Bool) (spec : TaskSpecification) (wr : Bool) (q : ClientQueue) :
    CoreFieldsEq (HandlePushTaskReply cfg now status iae spec wr q).1 q := by
  obtain ⟨a, w, c, r, p, h, he⟩ := handleReply_frame cfg now status iae spec wr q
  rw [h]
  exact ⟨rfl, rfl, rfl, rfl, rfl, rfl, rfl, rfl, rfl, rfl⟩

theorem handleFailedReplies_core (cfg : SubmitterConfig) (now : Int) (st : Status)
    (ts : List TaskSpecification) (os : List Bool) (q : ClientQueue) :
    CoreFieldsEq (handleFailedReplies cfg now st q ts os).1 q := by
  obtain ⟨a, w, c, r, p, h, he⟩ := handleFailedReplies_frame cfg now st ts os q
  rw [h]
  exact ⟨rfl, rfl, rfl, rfl, rfl, rfl, rfl, rfl, rfl, rfl⟩

theorem pushTasks_core (ts : List (TaskSpecification × Bool)) (q : ClientQueue) :
    CoreFieldsEq (pushTasks q ts).1 q := by
  obtain ⟨i, h⟩ := pushTasks_frame ts q
  rw [h]
  exact ⟨rfl, rfl, rfl, rfl, rfl, rfl, rfl, rfl, rfl, rfl⟩

theorem sendPendingTasks_core (cfg : SubmitterConfig) (now : Int)
    (os : List Bool) (q : ClientQueue) :
    CoreFieldsEq (SendPendingTasks cfg now os q).1 q := by
  cases hc : q.rpc_client with
  | none =>
    cases hr : (q.state == ActorState.RESTARTING && q.fail_if_actor_unreachable) with
    | true =>
      rw [sendPendingTasks_no_client_fail cfg now os q hc hr]
      refine coreFieldsEq_trans (handleFailedReplies_core cfg now _ _ _ _) ?_
      exact ⟨rfl, rfl, rfl, rfl, rfl, rfl, rfl, rfl, rfl, rfl⟩
    | false =>
      rw [sendPendingTasks_no_client_idle cfg now os q hc hr]
      exact coreFieldsEq_refl q
  | some addr =>
    cases hk : q.pending_force_kill with
    | some request =>
      rw [sendPendingTasks_client_kill cfg now os q addr request hc hk]
      refine coreFieldsEq_trans (pushTasks_core _ _) ?_
      exact ⟨rfl, rfl, rfl, rfl, rfl, rfl, rfl, rfl, rfl, rfl⟩
    | none =>
      rw [sendPendingTasks_client_nokill cfg now os q addr hc hk]
      refine coreFieldsEq_trans (pushTasks_core _ _) ?_
      exact ⟨rfl, rfl, rfl, rfl, rfl, rfl, rfl, rfl, rfl, rfl⟩

theorem resendOutOfOrderTasks_none (q : ClientQueue) (hc : q.rpc_client = none) :
    ResendOutOfOrderTasks q = (q, []) := by
  simp [ResendOutOfOrderTasks, hc]

theorem resendOutOfOrderTasks_some (q : ClientQueue) (addr : Address)
    (hc : q.rpc_client = some addr) :
    ResendOutOfOrderTasks q =
      pushTasks { q with actor_submit_queue := q.actor_submit_queue.popAllOutOfOrderCompletedTasks.2 }
        (q.actor_submit_queue.popAllOutOfOrderCompletedTasks.1.map
          (fun ct => ({ ct.2 with skip_execution := true }, true))) := by
  simp [ResendOutOfOrderTasks, hc]

theorem resendOutOfOrderTasks_core (q : ClientQueue) :
    CoreFieldsEq (ResendOutOfOrderTasks q).1 q := by
  cases hc : q.rpc_client with
  | none =>
    rw [resendOutOfOrderTasks_none q hc]
    exact coreFieldsEq_refl q
  | some addr =>
    rw [resendOutOfOrderTasks_some q addr hc]
    refine coreFieldsEq_trans (pushTasks_core _ _) ?_
    exact ⟨rfl, rfl, rfl, rfl, rfl, rfl, rfl, rfl, rfl, rfl⟩

theorem handleFailedReplies_state (cfg : SubmitterConfig) (now : Int) (st : Status)
    (ts : List TaskSpecification) (os : List Bool) (q : ClientQueue) :
    (handleFailedReplies cfg now st q ts os).1.state = q.state :=
  (handleFailedReplies_core cfg now st ts os q).1

theorem sendPendingTasks_state (cfg : SubmitterConfig) (now : Int)
    (os : List Bool) (q : ClientQueue) :
    (SendPendingTasks cfg now os q).1.state = q.state :=
  (sendPendingTasks_core cfg now os q).1

theorem sendPendingTasks_pending_none (cfg : SubmitterConfig) (now : Int)
    (os : List Bool) (q : ClientQueue) (hc : q.rpc_client = none) :
    (SendPendingTasks cfg now os q).1.pending_force_kill = q.pending_force_kill := by
  cases hr : (q.state == ActorState.RESTARTING && q.fail_if_actor_unreachable) with
  | true =>
    rw [sendPendingTasks_no_client_fail cfg now os q hc hr]
    obtain ⟨a, w, c, r, p, h, he⟩ :=
      handleFailedReplies_frame cfg now (Status.IOError "The actor is temporarily unavailable.")
        (drainReady q.actor_submit_queue.entries).1 os
        { q with actor_submit_queue :=
            { q.actor_submit_queue with entries := (drainReady q.actor_submit_queue.entries).2 } }
    rw [h]
  | false => rw [sendPendingTasks_no_client_idle cfg now os q hc hr]

theorem submitTask_state (spec : TaskSpecification) (q : ClientQueue) :
    (SubmitTask spec q).1.state = q.state := by
  simp only [SubmitTask]
  split_ifs with hd <;>
    cases he : q.actor_submit_queue.emplace spec.actor_counter spec <;> simp [he]

theorem handleDependencyResolution_core (cfg : SubmitterConfig) (now : Int)
    (send_pos task_id : Nat) (status : Status) (os : List Bool) (q : ClientQueue) :
    CoreFieldsEq (HandleDependencyResolution cfg now send_pos task_id status os q).1 q := by
  simp only [HandleDependencyResolution]
  split_ifs
  · exact coreFieldsEq_trans (sendPendingTasks_core cfg now os _)
      ⟨rfl, rfl, rfl, rfl, rfl, rfl, rfl, rfl, rfl, rfl⟩
  · exact ⟨rfl, rfl, rfl, rfl, rfl, rfl, rfl, rfl, rfl, rfl⟩
  · exact coreFieldsEq_refl q

theorem deliverReply_core (cfg : SubmitterConfig) (now : Int) (task_id : Nat)
    (status : Status) (iae wr : Bool) (q : ClientQueue) :
    CoreFieldsEq (DeliverReply cfg now task_id status iae wr q).1 q := by
  simp only [DeliverReply]
  cases hf : q.inflight_task_callbacks.find? (fun e => e.1 == task_id) with
  | none => exact coreFieldsEq_refl q
  | some entry =>
    exact coreFieldsEq_trans (handleReply_core cfg now status iae entry.2.1 wr _)
      ⟨rfl, rfl, rfl, rfl, rfl, rfl, rfl, rfl, rfl, rfl⟩

theorem cancelTask_core (spec : TaskSpecification) (nc : Bool) (q : ClientQueue) :
    CoreFieldsEq (CancelTask spec nc q).1 q := by
  simp only [CancelTask]
  split_ifs <;>
    first
    | exact ⟨rfl, rfl, rfl, rfl, rfl, rfl, rfl, rfl, rfl, rfl⟩
    | (cases q.rpc_client <;> exact coreFieldsEq_refl q)

theorem killActor_core (cfg : SubmitterConfig) (now : Int) (fk nr : Bool)
    (os : List Bool) (q : ClientQueue) :
    CoreFieldsEq (KillActor cfg now fk nr os q).1 q := by
  simp only [KillActor]
  cases hp : q.pending_force_kill with
  | none =>
    exact coreFieldsEq_trans (sendPendingTasks_core cfg now os _)
      ⟨rfl, rfl, rfl, rfl, rfl, rfl, rfl, rfl, rfl, rfl⟩
  | some prev =>
    cases fk
    · exact coreFieldsEq_trans (sendPendingTasks_core cfg now os _) (coreFieldsEq_refl q)
    · exact coreFieldsEq_trans (sendPendingTasks_core cfg now os _)
        ⟨rfl, rfl, rfl, rfl, rfl, rfl, rfl, rfl, rfl, rfl⟩

theorem connectActor_dead (cfg : SubmitterConfig) (now : Int) (addr : Address)
    (r : Int) (os : List Bool) (q : ClientQueue) (h : q.state = ActorState.DEAD) :
    ConnectActor cfg now addr r os q = (q, []) := by
  by_cases h1 : r < q.num_restarts
  · simp [ConnectActor, h1]
  · cases hse : sameEndpoint q.rpc_client addr with
    | true => simp [ConnectActor, h1, hse]
    | false => simp [ConnectActor, h1, hse, h]

theorem disconnectActor_true_state (cfg : SubmitterConfig) (now : Int) (r : Int)
    (cause : ActorDeathCause) (os : List Bool) (q : ClientQueue) :
    (DisconnectActor cfg now r true cause os q).1.state = ActorState.DEAD := by
  simp [DisconnectActor, handleFailedReplies_state]

theorem disconnectActor_false_dead (cfg : SubmitterConfig) (now : Int) (r : Int)
    (cause : ActorDeathCause) (os : List Bool) (q : ClientQueue)
    (h : q.state = ActorState.DEAD) :
    (DisconnectActor cfg now r false cause os q).1.state = ActorState.DEAD := by
  by_cases h0 : r ≤ 0
  · simp [DisconnectActor, h0, h]
  · by_cases h1 : r ≤ q.num_restarts
    · simp [DisconnectActor, h0, h1, h]
    · simp [DisconnectActor, DisconnectRpcClient, h0, h1, h, handleFailedReplies_state]

theorem failImmediatelyOf_getError (c : ActorDeathCause) :
    failImmediatelyOf (GetErrorInfoFromActorDeathCause c) =
      (c.has_oom_context && c.oom_fail_immediately) := by
  simp [failImmediatelyOf, GetErrorInfoFromActorDeathCause, RayErrorInfo.has_actor_died_error]

/-! ## Concrete states used by witnesses and counterexamples -/

/-! ## Claim theorems -/

/-- C4.  Submit to a dead actor: when the queue is DEAD, `SubmitTask`
returns OK, leaves the queue (submit queue, `cur_pending_calls`, all
fields) unchanged, marks the task canceled in the task tracker, and fails
it through `FailOrRetryPendingTask` with the error type derived from the
recorded death cause, `mark_task_object_failed = true`, and
`fail_immediately` set exactly when the recorded cause carries an OOM
context whose flag is set. -/
theorem claim_C4_submit_to_dead (spec : TaskSpecification) (q : ClientQueue)
    (h : q.state = ActorState.DEAD) :
    SubmitTask spec q =
      (q,
       [Effect.markTaskCanceled spec.task_id,
        Effect.failOrRetryPendingTask spec.task_id
          (GetErrorInfoFromActorDeathCause q.death_cause).error_type
          (some (Status.IOError "cancelling task of dead actor"))
          (some (GetErrorInfoFromActorDeathCause q.death_cause))
          true
          (q.death_cause.has_oom_context && q.death_cause.oom_fail_immediately)],
       Status.OK) := by
  simp [SubmitTask, h, failImmediatelyOf_getError]

/-- Witness for C4 at a concrete OOM-dead queue. -/
theorem claim_C4_witness :
    qDeadOom.state = ActorState.DEAD ∧
    SubmitTask specT1 qDeadOom =
      (qDeadOom,
       [Effect.markTaskCanceled specT1.task_id,
        Effect.failOrRetryPendingTask specT1.task_id
          (GetErrorInfoFromActorDeathCause qDeadOom.death_cause).error_type
          (some (Status.IOError "cancelling task of dead actor"))
          (some (GetErrorInfoFromActorDeathCause qDeadOom.death_cause))
          true
          (qDeadOom.death_cause.has_oom_context && qDeadOom.death_cause.oom_fail_immediately)],
       Status.OK) :=
  ⟨rfl, claim_C4_submit_to_dead specT1 qDeadOom rfl⟩

/-- C5.  DEAD is absorbing: from a DEAD queue, every event leaves the state
DEAD; `ConnectActor` returns with the queue completely unchanged (no
client opened); a non-dead `DisconnectActor` never moves the queue to
RESTARTING; and `SubmitTask` never enqueues (submit queue and pending-call
counter unchanged). -/
theorem claim_C5_dead_absorbing (cfg : SubmitterConfig) (q : ClientQueue)
    (h : q.state = ActorState.DEAD) :
    (∀ e : Event, (step cfg q e).1.state = ActorState.DEAD) ∧
    (∀ (now : Int) (addr : Address) (r : Int) (os : List Bool),
       ConnectActor cfg now addr r os q = (q, [])) ∧
    (∀ (now r : Int) (cause : ActorDeathCause) (os : List Bool),
       (DisconnectActor cfg now r false cause os q).1.state = ActorState.DEAD) ∧
    (∀ spec : TaskSpecification,
       (SubmitTask spec q).1.actor_submit_queue = q.actor_submit_queue ∧
       (SubmitTask spec q).1.cur_pending_calls = q.cur_pending_calls) := by
  refine ⟨?_, ?_, ?_, ?_⟩
  · intro e
    cases e with
    | submit spec => exact (submitTask_state spec q).trans h
    | resolve sp tid st now os =>
      exact ((handleDependencyResolution_core cfg now sp tid st os q).1).trans h
    | connect addr r now os =>
      show (ConnectActor cfg now addr r os q).1.state = _
      rw [connectActor_dead cfg now addr r os q h]
      exact h
    | disconnect r d cause now os =>
      cases d with
      | true => exact disconnectActor_true_state cfg now r cause os q
      | false => exact disconnectActor_false_dead cfg now r cause os q h
    | reply tid st iae wr now =>
      exact ((deliverReply_core cfg now tid st iae wr q).1).trans h
    | kill fk nr now os => exact ((killActor_core cfg now fk nr os q).1).trans h
    | cancel spec nc => exact ((cancelTask_core spec nc q).1).trans h
    | sweep now => exact h
  · intro now addr r os
    exact connectActor_dead cfg now addr r os q h
  · intro now r cause os
    exact disconnectActor_false_dead cfg now r cause os q h
  · intro spec
    refine ⟨?_, ?_⟩ <;> simp [SubmitTask, h]

/-- Witness for C5 at a concrete dead queue. -/
theorem claim_C5_witness :
    qDeadOom.state = ActorState.DEAD ∧
    (step cfg0 qDeadOom (Event.submit specT1)).1.state = ActorState.DEAD ∧
    ConnectActor cfg0 0 addrA 3 [] qDeadOom = (qDeadOom, []) :=
  ⟨rfl, (claim_C5_dead_absorbing cfg0 qDeadOom rfl).1 (Event.submit specT1),
    (claim_C5_dead_absorbing cfg0 qDeadOom rfl).2.1 0 addrA 3 []⟩

/-- C10.  Equal-endpoint connect is a no-op: when the held client's address
matches the incoming address on ip and port, `ConnectActor` returns with
the queue unchanged and no effects — with no condition on `num_restarts`,
so also when the incoming `num_restarts` is strictly greater. -/
theorem claim_C10_equal_endpoint_noop (cfg : SubmitterConfig) (now : Int)
    (addr : Address) (r : Int) (os : List Bool) (q : ClientQueue) (c : Address)
    (hc : q.rpc_client = some c) (hip : c.ip_address = addr.ip_address)
    (hport : c.port = addr.port) :
    ConnectActor cfg now addr r os q = (q, []) := by
  have he : sameEndpoint q.rpc_client addr = true := by
    simp [sameEndpoint, hc, hip, hport]
  by_cases h1 : r < q.num_restarts
  · simp [ConnectActor, h1]
  · simp [ConnectActor, h1, he]

/-- Witness for C10: reconnect to the same ip and port from a different
worker id, with `num_restarts = 5` strictly above the queue's current 0. -/
theorem claim_C10_witness :
    qConnected.rpc_client = some addrA ∧
    addrA.ip_address = addrB.ip_address ∧
    addrA.port = addrB.port ∧
    qConnected.num_restarts < 5 ∧
    ConnectActor cfg0 0 addrB 5 [] qConnected = (qConnected, []) :=
  ⟨rfl, rfl, rfl, by decide,
    claim_C10_equal_endpoint_noop cfg0 0 addrB 5 [] qConnected addrA rfl rfl rfl⟩

/-- Counterexample to C3 as stated: a `ConnectActor` whose `num_restarts`
argument equals the queue's current `num_restarts` (so `r ≤ num_restarts`)
is not ignored — it connects the actor (state RESTARTING becomes ALIVE and
a client is opened).  This is the ordinary reconnect path, since a
non-dead disconnect has already advanced `num_restarts` to the same
incarnation number. -/
theorem claim_C3_counterexample :
    qRestarting1.num_restarts = 1 ∧
    qRestarting1.state = ActorState.RESTARTING ∧
    (ConnectActor cfg0 0 addrA 1 [] qRestarting1).1.state = ActorState.ALIVE ∧
    (ConnectActor cfg0 0 addrA 1 [] qRestarting1).1.rpc_client = some addrA :=
  ⟨rfl, rfl, rfl, rfl⟩

/-- C3 (amended).  Stale notifications are ignored with a strict comparison
for connects: `ConnectActor` with `r < num_restarts`, and non-dead
`DisconnectActor` with `r ≤ num_restarts`, return with the queue
unchanged and no effects. -/
theorem claim_C3_stale_ignored (cfg : SubmitterConfig) (now : Int) (addr : Address)
    (r : Int) (os : List Bool) (cause : ActorDeathCause) (q : ClientQueue) :
    (r < q.num_restarts → ConnectActor cfg now addr r os q = (q, [])) ∧
    (r ≤ q.num_restarts → DisconnectActor cfg now r false cause os q = (q, [])) := by
  constructor
  · intro h
    simp [ConnectActor, h]
  · intro h
    by_cases h0 : r ≤ 0
    · simp [DisconnectActor, h0]
    · simp [DisconnectActor, h0, h]

/-- Witness for C3 (amended) at concrete stale notifications. -/
theorem claim_C3_witness :
    ConnectActor cfg0 0 addrA 0 [] qRestarting1 = (qRestarting1, []) ∧
    DisconnectActor cfg0 0 1 false ActorDeathCause.unset [] qRestarting1 =
      (qRestarting1, []) :=
  ⟨(claim_C3_stale_ignored cfg0 0 addrA 0 [] ActorDeathCause.unset qRestarting1).1
      (by decide),
   (claim_C3_stale_ignored cfg0 0 addrA 1 [] ActorDeathCause.unset qRestarting1).2
      (by decide)⟩

/-- Counterexample to C9 as stated: with a non-force kill already staged, a
second `KillActor(force_kill = false, no_restart = true)` leaves the
staged request at `(false, false)`, not at the pointwise OR
`(false, true)`. -/
theorem claim_C9_counterexample :
    qStagedKill.pending_force_kill = some (KillActorRequest.mk false false) ∧
    (KillActor cfg0 0 false true [] qStagedKill).1.pending_force_kill =
      some (KillActorRequest.mk false false) ∧
    KillActorRequest.mk false false ≠
      KillActorRequest.mk (false || false) (false || true) :=
  ⟨rfl, rfl, by decide⟩

/-- C9 (amended).  At most one kill request is staged per actor (the slot
is an option).  A `KillActor` call on a queue with no client stages: the
new request when the slot is empty; otherwise, if the new call's
`force_kill` is true, the escalated request `(true, staged.no_restart ||
new.no_restart)`; otherwise the staged request is left unchanged. -/
theorem claim_C9_kill_staging (cfg : SubmitterConfig) (now : Int) (fk nr : Bool)
    (os : List Bool) (q : ClientQueue) (hc : q.rpc_client = none) :
    (KillActor cfg now fk nr os q).1.pending_force_kill =
      (match q.pending_force_kill with
       | none => some (KillActorRequest.mk fk nr)
       | some prev =>
         if fk then some (KillActorRequest.mk true (prev.no_restart || nr))
         else some prev) := by
  cases hp : q.pending_force_kill with
  | none =>
    have h1 : KillActor cfg now fk nr os q =
        SendPendingTasks cfg now os
          { q with pending_force_kill := some (KillActorRequest.mk fk nr) } := by
      simp [KillActor, hp]
    rw [h1, sendPendingTasks_pending_none cfg now os
      { q with pending_force_kill := some (KillActorRequest.mk fk nr) } hc]
  | some prev =>
    cases fk with
    | true =>
      have h1 : KillActor cfg now true nr os q =
          SendPendingTasks cfg now os
            { q with pending_force_kill := some (KillActorRequest.mk true (prev.no_restart || nr)) } := by
        simp [KillActor, hp]
      rw [h1, sendPendingTasks_pending_none cfg now os
        { q with pending_force_kill := some (KillActorRequest.mk true (prev.no_restart || nr)) } hc]
      simp
    | false =>
      have h1 : KillActor cfg now false nr os q = SendPendingTasks cfg now os q := by
        simp [KillActor, hp]
      rw [h1, sendPendingTasks_pending_none cfg now os q hc, hp]
      simp

/-- Witness for C9 (amended): the escalating repeat call on the concrete
staged queue combines to `(true, true)`. -/
theorem claim_C9_witness :
    qStagedKill.rpc_client = none ∧
    (KillActor cfg0 0 true true [] qStagedKill).1.pending_force_kill =
      some (KillActorRequest.mk true (false || true)) :=
  ⟨rfl, claim_C9_kill_staging cfg0 0 true true [] qStagedKill rfl⟩

/-- C6.  Grace-window routing in the reply handler.  For a transport
failure (status neither OK nor SchedulingCancelled, task not
skip-execution) where the tracker declines a retry: on a non-DEAD queue
the task is parked in `wait_for_death_info_tasks` with deadline
`now + timeout` when the configured grace window is nonzero, and is
immediately failed with `ACTOR_DIED` (with no parking) when it is zero; on
a DEAD queue nothing is ever parked. -/
theorem claim_C6_grace_routing (cfg : SubmitterConfig) (now : Int) (status : Status)
    (iae : Bool) (spec : TaskSpecification) (q : ClientQueue)
    (hok : status.isOk = false) (hsc : status.isSchedulingCancelled = false)
    (hskip : spec.skip_execution = false) :
    (q.state ≠ ActorState.DEAD →
       cfg.timeout_ms_task_wait_for_death_info ≠ 0 →
       (HandlePushTaskReply cfg now status iae spec false q).1.wait_for_death_info_tasks =
         q.wait_for_death_info_tasks ++
           [DeathInfoEntry.mk (now + cfg.timeout_ms_task_wait_for_death_info) spec status] ∧
       (HandlePushTaskReply cfg now status iae spec false q).2 =
         [Effect.cancelDependencyResolution spec.task_id,
          Effect.failOrRetryPendingTask spec.task_id
            (GetErrorInfoFromActorDeathCause q.death_cause).error_type
            (some status) (some (GetErrorInfoFromActorDeathCause q.death_cause))
            false (q.death_cause.has_oom_context && q.death_cause.oom_fail_immediately)]) ∧
    (q.state ≠ ActorState.DEAD →
       cfg.timeout_ms_task_wait_for_death_info = 0 →
       (HandlePushTaskReply cfg now status iae spec false q).1.wait_for_death_info_tasks =
         q.wait_for_death_info_tasks ∧
       (HandlePushTaskReply cfg now status iae spec false q).2 =
         [Effect.cancelDependencyResolution spec.task_id,
          Effect.failOrRetryPendingTask spec.task_id
            (GetErrorInfoFromActorDeathCause q.death_cause).error_type
            (some status) (some (GetErrorInfoFromActorDeathCause q.death_cause))
            false (q.death_cause.has_oom_context && q.death_cause.oom_fail_immediately),
          Effect.failPendingTask spec.task_id ErrorType.ACTOR_DIED (some status) none]) ∧
    (q.state = ActorState.DEAD →
       (HandlePushTaskReply cfg now status iae spec false q).1.wait_for_death_info_tasks =
         q.wait_for_death_info_tasks) := by
  refine ⟨?_, ?_, ?_⟩
  · intro hd ht
    have hb : (q.state == ActorState.DEAD) = false := by simp [hd]
    constructor <;>
      simp [HandlePushTaskReply, hok, hsc, hskip, hb, ht, failImmediatelyOf_getError]
  · intro hd ht
    have hb : (q.state == ActorState.DEAD) = false := by simp [hd]
    constructor <;>
      simp [HandlePushTaskReply, hok, hsc, hskip, hb, ht, failImmediatelyOf_getError]
  · intro hd
    have hb : (q.state == ActorState.DEAD) = true := by simp [hd]
    simp [HandlePushTaskReply, hok, hsc, hskip, hb]

/-- Witness for C6: a transport-failure reply on a concrete RESTARTING
queue with a 1000 ms grace window parks the task, and with a zero window
does not. -/
theorem claim_C6_witness :
    ((HandlePushTaskReply cfgGrace 0 (Status.IOError "boom") false specT1 false
        qRestarting1).1.wait_for_death_info_tasks =
      qRestarting1.wait_for_death_info_tasks ++
        [DeathInfoEntry.mk (0 + cfgGrace.timeout_ms_task_wait_for_death_info) specT1
          (Status.IOError "boom")] ∧
     (HandlePushTaskReply cfgGrace 0 (Status.IOError "boom") false specT1 false
        qRestarting1).2 =
      [Effect.cancelDependencyResolution specT1.task_id,
       Effect.failOrRetryPendingTask specT1.task_id
         (GetErrorInfoFromActorDeathCause qRestarting1.death_cause).error_type
         (some (Status.IOError "boom"))
         (some (GetErrorInfoFromActorDeathCause qRestarting1.death_cause))
         false
         (qRestarting1.death_cause.has_oom_context &&
           qRestarting1.death_cause.oom_fail_immediately)]) ∧
    (HandlePushTaskReply cfg0 0 (Status.IOError "boom") false specT1 false
        qRestarting1).1.wait_for_death_info_tasks =
      qRestarting1.wait_for_death_info_tasks :=
  ⟨(claim_C6_grace_routing cfgGrace 0 (Status.IOError "boom") false specT1 qRestarting1
      rfl rfl rfl).1 (by decide) (by decide),
   ((claim_C6_grace_routing cfg0 0 (Status.IOError "boom") false specT1 qRestarting1
      rfl rfl rfl).2.1 (by decide) (by decide)).1⟩

/-- The first element surviving a `dropWhile` does not satisfy the
predicate. -/
theorem head_dropWhile_false {α : Type} (p : α → Bool) (l : List α) (x : α)
    (h : (l.dropWhile p).head? = some x) : p x = false := by
  induction l with
  | nil => simp [List.dropWhile] at h
  | cons a as ih =>
    rw [List.dropWhile_cons] at h
    by_cases hp : p a = true
    · simp [hp] at h
      exact ih h
    · simp [hp] at h
      rw [← h]
      simpa using hp

/-- Counterexample to C8 as stated: an entry whose deadline equals the
current time (`deadline ≤ now` holds) is not removed and not failed by
the sweep — the code compares with strict `<`. -/
theorem claim_C8_counterexample :
    qGrace5.wait_for_death_info_tasks = [DeathInfoEntry.mk 5 specT1 (Status.IOError "net")] ∧
    (5 : Int) ≤ 5 ∧
    (CheckTimeoutTasks 5 [qGrace5]).1 = [qGrace5] ∧
    (CheckTimeoutTasks 5 [qGrace5]).2 = [] :=
  ⟨rfl, by decide, rfl, rfl⟩

/-- C8 (amended).  The sweep removes, from the front of every queue's
grace FIFO, exactly the longest leading block of entries whose deadline is
strictly less than the current time: the FIFO splits as that block
followed by the kept suffix, every removed entry has an expired deadline,
the first kept entry (if any) does not, and each removed entry yields one
`FailPendingTask` effect with `ACTOR_DIED` and a synthesized cause
carrying the queue's `actor_id` and `preempted` flag; the registry-level
call is the per-queue sweep on every queue with the collected failures
issued afterwards. -/
theorem claim_C8_sweep (now : Int) (q : ClientQueue) (qs : List ClientQueue) :
    q.wait_for_death_info_tasks =
      q.wait_for_death_info_tasks.takeWhile (fun e => e.deadline_ms < now) ++
        (sweepQueue now q).1.wait_for_death_info_tasks ∧
    (∀ e ∈ q.wait_for_death_info_tasks.takeWhile (fun e => e.deadline_ms < now),
       e.deadline_ms < now) ∧
    (∀ e, (sweepQueue now q).1.wait_for_death_info_tasks.head? = some e →
       ¬ e.deadline_ms < now) ∧
    (sweepQueue now q).2 =
      (q.wait_for_death_info_tasks.takeWhile (fun e => e.deadline_ms < now)).map
        (fun e => TaskInfo.mk e.spec e.status q.actor_id q.preempted) ∧
    (∀ t : TaskInfo,
       FailTaskWithError t =
         Effect.failPendingTask t.specification.task_id ErrorType.ACTOR_DIED (some t.status)
           (some (RayErrorInfo.mk ErrorType.ACTOR_DIED
             (some (ActorDeathCause.actorDiedErrorContext t.actor_id t.preempted))
             "Actor died."))) ∧
    CheckTimeoutTasks now qs =
      (qs.map (fun p => (sweepQueue now p).1),
       (qs.flatMap (fun p => (sweepQueue now p).2)).map FailTaskWithError) := by
  refine ⟨?_, ?_, ?_, rfl, fun t => rfl, rfl⟩
  · exact (List.takeWhile_append_dropWhile (fun e => decide (e.deadline_ms < now))
      q.wait_for_death_info_tasks).symm
  · intro e he
    simpa using List.mem_takeWhile_imp he
  · intro e he
    have hw : (sweepQueue now q).1.wait_for_death_info_tasks =
        q.wait_for_death_info_tasks.dropWhile (fun e => e.deadline_ms < now) := rfl
    rw [hw] at he
    simpa using head_dropWhile_false (fun x => decide (x.deadline_ms < now))
      q.wait_for_death_info_tasks e he

/-- Witness for C8 (amended) at a concrete queue and registry. -/
theorem claim_C8_witness :
    qGrace5.wait_for_death_info_tasks =
      qGrace5.wait_for_death_info_tasks.takeWhile (fun e => e.deadline_ms < 6) ++
        (sweepQueue 6 qGrace5).1.wait_for_death_info_tasks ∧
    (sweepQueue 6 qGrace5).2 =
      (qGrace5.wait_for_death_info_tasks.takeWhile (fun e => e.deadline_ms < 6)).map
        (fun e => TaskInfo.mk e.spec e.status qGrace5.actor_id qGrace5.preempted) ∧
    CheckTimeoutTasks 6 [qGrace5] =
      ([(sweepQueue 6 qGrace5).1], (sweepQueue 6 qGrace5).2.map FailTaskWithError) := by
  refine ⟨(claim_C8_sweep 6 qGrace5 [qGrace5]).1, (claim_C8_sweep 6 qGrace5 [qGrace5]).2.2.2.1, ?_⟩
  rw [(claim_C8_sweep 6 qGrace5 [qGrace5]).2.2.2.2.2]
  rfl

theorem handleReply_balance (cfg : SubmitterConfig) (now : Int) (status : Status)
    (iae : Bool) (spec : TaskSpecification) (wr : Bool) (q : ClientQueue) :
    pendingBalance (HandlePushTaskReply cfg now status iae spec wr q).1 = pendingBalance q := by
  simp only [HandlePushTaskReply]
  split_ifs <;> (simp [pendingBalance]; try omega)

theorem handleReply_parked_iff (cfg : SubmitterConfig) (now : Int) (status : Status)
    (iae : Bool) (spec : TaskSpecification) (wr : Bool) (q : ClientQueue) :
    parkedInvariant (HandlePushTaskReply cfg now status iae spec wr q).1 ↔
      parkedInvariant q := by
  simp only [HandlePushTaskReply]
  split_ifs <;> simp [parkedInvariant, ← List.append_assoc, List.append_left_inj]

theorem handleFailedReplies_balance (cfg : SubmitterConfig) (now : Int) (st : Status)
    (ts : List TaskSpecification) :
    ∀ (os : List Bool) (q : ClientQueue),
      pendingBalance (handleFailedReplies cfg now st q ts os).1 = pendingBalance q := by
  induction ts with
  | nil => intro os q; rfl
  | cons s rest ih =>
    intro os q
    show pendingBalance (handleFailedReplies cfg now st
      (HandlePushTaskReply cfg now st false s (os.headD false) q).1 rest os.tail).1 = _
    rw [ih os.tail, handleReply_balance]

theorem handleFailedReplies_parked_iff (cfg : SubmitterConfig) (now : Int) (st : Status)
    (ts : List TaskSpecification) :
    ∀ (os : List Bool) (q : ClientQueue),
      parkedInvariant (handleFailedReplies cfg now st q ts os).1 ↔ parkedInvariant q := by
  induction ts with
  | nil => intro os q; exact Iff.rfl
  | cons s rest ih =>
    intro os q
    show parkedInvariant (handleFailedReplies cfg now st
      (HandlePushTaskReply cfg now st false s (os.headD false) q).1 rest os.tail).1 ↔ _
    rw [ih os.tail, handleReply_parked_iff]

theorem pushTasks_balance (ts : List (TaskSpecification × Bool)) (q : ClientQueue) :
    pendingBalance (pushTasks q ts).1 = pendingBalance q := by
  obtain ⟨i, h⟩ := pushTasks_frame ts q
  rw [h]
  rfl

theorem pushTasks_parked_iff (ts : List (TaskSpecification × Bool)) (q : ClientQueue) :
    parkedInvariant (pushTasks q ts).1 ↔ parkedInvariant q := by
  obtain ⟨i, h⟩ := pushTasks_frame ts q
  rw [h]
  exact Iff.rfl

theorem sendPendingTasks_balance (cfg : SubmitterConfig) (now : Int)
    (os : List Bool) (q : ClientQueue) :
    pendingBalance (SendPendingTasks cfg now os q).1 = pendingBalance q := by
  cases hc : q.rpc_client with
  | none =>
    cases hr : (q.state == ActorState.RESTARTING && q.fail_if_actor_unreachable) with
    | true =>
      rw [sendPendingTasks_no_client_fail cfg now os q hc hr,
        handleFailedReplies_balance]
      rfl
    | false => rw [sendPendingTasks_no_client_idle cfg now os q hc hr]
  | some addr =>
    cases hk : q.pending_force_kill with
    | some request =>
      rw [sendPendingTasks_client_kill cfg now os q addr request hc hk]
      show pendingBalance (pushTasks _ _).1 = _
      rw [pushTasks_balance]
      rfl
    | none =>
      rw [sendPendingTasks_client_nokill cfg now os q addr hc hk, pushTasks_balance]
      rfl

theorem sendPendingTasks_parked_iff (cfg : SubmitterConfig) (now : Int)
    (os : List Bool) (q : ClientQueue) :
    parkedInvariant (SendPendingTasks cfg now os q).1 ↔ parkedInvariant q := by
  cases hc : q.rpc_client with
  | none =>
    cases hr : (q.state == ActorState.RESTARTING && q.fail_if_actor_unreachable) with
    | true =>
      rw [sendPendingTasks_no_client_fail cfg now os q hc hr,
        handleFailedReplies_parked_iff]
      try exact Iff.rfl
    | false =>
      rw [sendPendingTasks_no_client_idle cfg now os q hc hr]
      try exact Iff.rfl
  | some addr =>
    cases hk : q.pending_force_kill with
    | some request =>
      rw [sendPendingTasks_client_kill cfg now os q addr request hc hk]
      show parkedInvariant (pushTasks _ _).1 ↔ _
      rw [pushTasks_parked_iff]
      try exact Iff.rfl
    | none =>
      rw [sendPendingTasks_client_nokill cfg now os q addr hc hk, pushTasks_parked_iff]
      try exact Iff.rfl

theorem resendOutOfOrderTasks_balance (q : ClientQueue) :
    pendingBalance (ResendOutOfOrderTasks q).1 = pendingBalance q := by
  cases hc : q.rpc_client with
  | none => rw [resendOutOfOrderTasks_none q hc]
  | some addr =>
    rw [resendOutOfOrderTasks_some q addr hc, pushTasks_balance]
    try rfl

theorem resendOutOfOrderTasks_parked_iff (q : ClientQueue) :
    parkedInvariant (ResendOutOfOrderTasks q).1 ↔ parkedInvariant q := by
  cases hc : q.rpc_client with
  | none =>
    rw [resendOutOfOrderTasks_none q hc]
    try exact Iff.rfl
  | some addr =>
    rw [resendOutOfOrderTasks_some q addr hc, pushTasks_parked_iff]
    try exact Iff.rfl

theorem step_balance (cfg : SubmitterConfig) (q : ClientQueue) (e : Event) :
    pendingBalance (step cfg q e).1 = pendingBalance q := by
  cases e with
  | submit spec =>
    show pendingBalance (SubmitTask spec q).1 = _
    simp only [SubmitTask]
    split_ifs <;>
      cases he : q.actor_submit_queue.emplace spec.actor_counter spec <;>
        (simp [he, pendingBalance]; try omega)
  | resolve sp tid st now os =>
    show pendingBalance (HandleDependencyResolution cfg now sp tid st os q).1 = _
    simp only [HandleDependencyResolution]
    split_ifs <;>
      first
        | (rw [sendPendingTasks_balance]; rfl)
        | rfl
  | connect addr r now os =>
    show pendingBalance (ConnectActor cfg now addr r os q).1 = _
    by_cases h1 : r < q.num_restarts
    · simp [ConnectActor, h1]
    · cases h2 : sameEndpoint q.rpc_client addr with
      | true => simp [ConnectActor, h1, h2]
      | false =>
        by_cases h3 : q.state = ActorState.DEAD
        · simp [ConnectActor, h1, h2, h3]
        · have hb : (q.state == ActorState.DEAD) = false := by simp [h3]
          simp only [ConnectActor, h1, h2, hb, if_false, Bool.false_eq_true]
          split_ifs <;>
            (rw [handleFailedReplies_balance, sendPendingTasks_balance,
              resendOutOfOrderTasks_balance]; rfl)
  | disconnect r d cause now os =>
    show pendingBalance (DisconnectActor cfg now r d cause os q).1 = _
    simp only [DisconnectActor]
    split_ifs <;>
      first
        | rfl
        | (rw [handleFailedReplies_balance]; rfl)
  | reply tid st iae wr now =>
    show pendingBalance (DeliverReply cfg now tid st iae wr q).1 = _
    simp only [DeliverReply]
    cases hf : q.inflight_task_callbacks.find? (fun e => e.1 == tid) with
    | none => rfl
    | some entry =>
      rw [handleReply_balance]
      try rfl
  | kill fk nr now os =>
    show pendingBalance (KillActor cfg now fk nr os q).1 = _
    simp only [KillActor]
    cases hp : q.pending_force_kill with
    | none =>
      rw [sendPendingTasks_balance]
      try rfl
    | some prev =>
      cases fk <;> rw [sendPendingTasks_balance] <;> try rfl
  | cancel spec nc =>
    show pendingBalance (CancelTask spec nc q).1 = _
    simp only [CancelTask]
    split_ifs <;>
      first
        | rfl
        | (cases q.rpc_client <;> rfl)
  | sweep now => rfl

theorem step_parked (cfg : SubmitterConfig) (q : ClientQueue) (e : Event)
    (h : parkedInvariant q) : parkedInvariant (step cfg q e).1 := by
  cases e with
  | submit spec =>
    show parkedInvariant (SubmitTask spec q).1
    simp only [SubmitTask]
    split_ifs <;>
      cases he : q.actor_submit_queue.emplace spec.actor_counter spec <;>
        simpa [he, parkedInvariant] using h
  | resolve sp tid st now os =>
    show parkedInvariant (HandleDependencyResolution cfg now sp tid st os q).1
    simp only [HandleDependencyResolution]
    split_ifs <;>
      first
        | exact h
        | exact (sendPendingTasks_parked_iff cfg now os _).mpr h
  | connect addr r now os =>
    show parkedInvariant (ConnectActor cfg now addr r os q).1
    by_cases h1 : r < q.num_restarts
    · simpa [ConnectActor, h1] using h
    · cases h2 : sameEndpoint q.rpc_client addr with
      | true => simpa [ConnectActor, h1, h2] using h
      | false =>
        by_cases h3 : q.state = ActorState.DEAD
        · simpa [ConnectActor, h1, h2, h3] using h
        · have hb : (q.state == ActorState.DEAD) = false := by simp [h3]
          simp only [ConnectActor, h1, h2, hb, if_false, Bool.false_eq_true]
          split_ifs <;>
            exact (handleFailedReplies_parked_iff _ _ _ _ _ _).mpr
              ((sendPendingTasks_parked_iff _ _ _ _).mpr
                ((resendOutOfOrderTasks_parked_iff _).mpr h))
  | disconnect r d cause now os =>
    show parkedInvariant (DisconnectActor cfg now r d cause os q).1
    simp only [DisconnectActor]
    split_ifs <;>
      first
        | exact h
        | (refine (handleFailedReplies_parked_iff _ _ _ _ _ _).mpr ?_
           simpa [parkedInvariant] using h)
  | reply tid st iae wr now =>
    show parkedInvariant (DeliverReply cfg now tid st iae wr q).1
    simp only [DeliverReply]
    cases hf : q.inflight_task_callbacks.find? (fun e => e.1 == tid) with
    | none => exact h
    | some entry =>
      refine (handleReply_parked_iff cfg now st iae entry.2.1 wr _).mpr ?_
      simpa [parkedInvariant] using h
  | kill fk nr now os =>
    show parkedInvariant (KillActor cfg now fk nr os q).1
    simp only [KillActor]
    cases hp : q.pending_force_kill with
    | none =>
      refine (sendPendingTasks_parked_iff cfg now os _).mpr ?_
      simpa [parkedInvariant] using h
    | some prev =>
      cases fk <;>
        (refine (sendPendingTasks_parked_iff cfg now os _).mpr ?_
         simpa [parkedInvariant] using h)
  | cancel spec nc =>
    show parkedInvariant (CancelTask spec nc q).1
    simp only [CancelTask]
    split_ifs <;>
      first
        | exact h
        | simpa [parkedInvariant] using h
        | (cases q.rpc_client <;> exact h)
  | sweep now =>
    show parkedInvariant { q with
        wait_for_death_info_tasks :=
          q.wait_for_death_info_tasks.dropWhile (fun e => e.deadline_ms < now)
        ghost_grace_failed := q.ghost_grace_failed ++
          q.wait_for_death_info_tasks.takeWhile (fun e => e.deadline_ms < now) }
    simp only [parkedInvariant] at h ⊢
    rw [h, List.append_assoc]
    congr 1
    exact (List.takeWhile_append_dropWhile (fun e => decide (e.deadline_ms < now))
      q.wait_for_death_info_tasks).symm

theorem run_balance (cfg : SubmitterConfig) :
    ∀ (es : List Event) (q : ClientQueue),
      pendingBalance (run cfg q es).1 = pendingBalance q := by
  intro es
  induction es with
  | nil => intro q; rfl
  | cons e rest ih =>
    intro q
    show pendingBalance (run cfg (step cfg q e).1 rest).1 = _
    rw [ih, step_balance]

theorem run_parked (cfg : SubmitterConfig) :
    ∀ (es : List Event) (q : ClientQueue),
      parkedInvariant q → parkedInvariant (run cfg q es).1 := by
  intro es
  induction es with
  | nil => intro q h; exact h
  | cons e rest ih =>
    intro q h
    exact ih (step cfg q e).1 (step_parked cfg q e h)

/-- C2 (amended).  `cur_pending_calls` equals the number of tasks accepted
by `SubmitTask` minus the number of push-task replies handled — every
handled reply decrements it, including replies for skip-execution
re-pushes and synthesized failure replies.  In runs where each accepted
task receives exactly one handled reply and no skip-execution re-push
occurs, it therefore returns to 0; a skip-execution re-push reply
decrements it without a matching increment, so after a reconnect replay it
can go negative (see the counterexample). -/
theorem claim_C2_pending_calls_accounting (cfg : SubmitterConfig) (a : Nat) (m : Int)
    (f : Bool) (es : List Event) :
    (run cfg (initialQueue a m f) es).1.cur_pending_calls =
      ((run cfg (initialQueue a m f) es).1.ghost_accepted : Int) -
        ((run cfg (initialQueue a m f) es).1.ghost_replies : Int) := by
  have h := run_balance cfg es (initialQueue a m f)
  have h0 : pendingBalance (initialQueue a m f) = 0 := rfl
  rw [h0] at h
  simp only [pendingBalance] at h
  omega

/-- Counterexample to C2 as stated: after `esC2`, every submitted task has
received its replies and all buffers are drained (nothing in flight,
queued, or parked), yet `cur_pending_calls` is −1 — the reply for the
skip-execution re-push decremented the counter with no matching
increment, so the counter neither returns to 0 nor stays non-negative. -/
theorem claim_C2_counterexample :
    (run cfg0 (initialQueue 7 8 false) esC2).1.cur_pending_calls = -1 ∧
    (run cfg0 (initialQueue 7 8 false) esC2).1.inflight_task_callbacks = [] ∧
    (run cfg0 (initialQueue 7 8 false) esC2).1.actor_submit_queue.entries = [] ∧
    (run cfg0 (initialQueue 7 8 false) esC2).1.wait_for_death_info_tasks = [] :=
  ⟨rfl, rfl, rfl, rfl⟩

/-- C7.  Grace idempotence: over any run from a fresh queue, the history
of entries ever parked in `wait_for_death_info_tasks` (`ghost_parked`,
appended exactly at the parking site in the reply handler) equals the
history of entries already handed to the tracker's failure path
(`ghost_grace_failed`, appended exactly where `DisconnectActor(dead)`
drains the deque or `CheckTimeoutTasks` expires entries — in both cases
after removal from the deque and paired one-to-one with a
`FailPendingTask` effect) followed by the entries still parked.  Hence
every parked entry is failed at most once, by exactly one of the two
paths, and is failed exactly once as soon as it leaves the deque. -/
theorem claim_C7_grace_exactly_once (cfg : SubmitterConfig) (a : Nat) (m : Int)
    (f : Bool) (es : List Event) :
    (run cfg (initialQueue a m f) es).1.ghost_parked =
      (run cfg (initialQueue a m f) es).1.ghost_grace_failed ++
        (run cfg (initialQueue a m f) es).1.wait_for_death_info_tasks :=
  run_parked cfg es (initialQueue a m f) rfl

theorem pushedCounters_append (a b : List Effect) :
    pushedCounters (a ++ b) = pushedCounters a ++ pushedCounters b :=
  List.filterMap_append a b _

theorem drainReady_eq (l : List SubmitEntry) :
    (drainReady l).1 = (l.takeWhile (fun e => e.dependency_resolved)).map (fun e => e.spec) ∧
    (drainReady l).2 = l.dropWhile (fun e => e.dependency_resolved) := by
  induction l with
  | nil => exact ⟨rfl, rfl⟩
  | cons e rest ih =>
    cases hd : e.dependency_resolved with
    | true =>
      constructor
      · show (drainReady (e :: rest)).1 = _
        simp [drainReady, hd, List.takeWhile_cons, ih.1]
      · show (drainReady (e :: rest)).2 = _
        simp [drainReady, hd, List.dropWhile_cons, ih.2]
    | false =>
      constructor
      · show (drainReady (e :: rest)).1 = _
        simp [drainReady, hd, List.takeWhile_cons]
      · show (drainReady (e :: rest)).2 = _
        simp [drainReady, hd, List.dropWhile_cons]

theorem insertEntry_append (e : SubmitEntry) (l : List SubmitEntry)
    (h : ∀ x ∈ l, x.counter < e.counter) :
    insertEntry e l = some (l ++ [e]) := by
  induction l with
  | nil => rfl
  | cons x xs ih =>
    have hx := h x (List.mem_cons_self x xs)
    have h1 : ¬ e.counter < x.counter := by omega
    have h2 : ¬ e.counter = x.counter := by omega
    rw [insertEntry, if_neg h1, if_neg h2,
      ih (fun y hy => h y (List.mem_cons_of_mem x hy))]
    rfl

/-- The delivered counters of a consistent block of entries form a
sublist of the block's keys. -/
theorem deliveredCounter_sublist (l : List SubmitEntry)
    (h : ∀ e ∈ l, e.counter = e.spec.actor_counter) :
    List.Sublist ((l.map (fun e => e.spec)).filterMap deliveredCounter)
      (l.map (fun e => e.counter)) := by
  induction l with
  | nil => exact List.Sublist.refl []
  | cons e rest ih =>
    have he := h e (List.mem_cons_self e rest)
    have ih2 := ih (fun y hy => h y (List.mem_cons_of_mem e hy))
    show List.Sublist (List.filterMap deliveredCounter (e.spec :: rest.map (fun x => x.spec)))
      (e.counter :: rest.map (fun x => x.counter))
    rw [List.filterMap_cons]
    cases hm : deliveredCounter e.spec with
    | none => exact ih2.cons e.counter
    | some c =>
      have hc : c = e.counter := by
        simp only [deliveredCounter] at hm
        split at hm
        · exact absurd hm (by simp)
        · rw [he]
          exact (Option.some_inj.mp hm).symm
      rw [hc]
      exact ih2.cons₂ e.counter

theorem handleReply_no_push (cfg : SubmitterConfig) (now : Int) (st : Status)
    (iae : Bool) (spec : TaskSpecification) (wr : Bool) (q : ClientQueue) :
    pushedCounters (HandlePushTaskReply cfg now st iae spec wr q).2 = [] := by
  simp only [HandlePushTaskReply]
  split_ifs <;> simp [pushedCounters]

theorem handleFailedReplies_no_push (cfg : SubmitterConfig) (now : Int) (st : Status)
    (ts : List TaskSpecification) :
    ∀ (os : List Bool) (q : ClientQueue),
      pushedCounters (handleFailedReplies cfg now st q ts os).2 = [] := by
  induction ts with
  | nil => intro os q; rfl
  | cons s rest ih =>
    intro os q
    show pushedCounters (_ ++ _) = []
    rw [pushedCounters_append, handleReply_no_push, ih]
    rfl

theorem pushTasks_pushed (ts : List (TaskSpecification × Bool)) :
    ∀ q : ClientQueue,
      pushedCounters (pushTasks q ts).2 =
        ts.filterMap (fun t => deliveredCounter t.1) := by
  induction ts with
  | nil => intro q; rfl
  | cons t rest ih =>
    intro q
    obtain ⟨s, k⟩ := t
    show pushedCounters ((PushActorTask q s k).2 ++ _) = _
    rw [pushedCounters_append, ih]
    show pushedCounters [_, Effect.pushActorTask s k _] ++ _ = _
    simp only [pushedCounters, List.filterMap_cons, List.filterMap_nil]
    cases hm : deliveredCounter s <;> simp [hm]

theorem resendOutOfOrderTasks_no_push (q : ClientQueue) :
    pushedCounters (ResendOutOfOrderTasks q).2 = [] := by
  cases hc : q.rpc_client with
  | none =>
    rw [resendOutOfOrderTasks_none q hc]
    rfl
  | some addr =>
    rw [resendOutOfOrderTasks_some q addr hc, pushTasks_pushed]
    simp [deliveredCounter]

theorem markDependencyResolved_counters (sq : ActorSubmitQueue) (c : Nat) :
    (sq.markDependencyResolved c).entries.map (fun e => e.counter) =
      sq.entries.map (fun e => e.counter) := by
  show (sq.entries.map _).map _ = _
  rw [List.map_map]
  exact List.map_congr_left (fun e _ => by simp only [Function.comp]; split <;> rfl)

theorem markDependencyResolved_consistent (sq : ActorSubmitQueue) (c : Nat)
    (h : ∀ e ∈ sq.entries, e.counter = e.spec.actor_counter) :
    ∀ e ∈ (sq.markDependencyResolved c).entries, e.counter = e.spec.actor_counter := by
  intro e he
  simp only [ActorSubmitQueue.markDependencyResolved, List.mem_map] at he
  obtain ⟨x, hx, rfl⟩ := he
  split <;> exact h x hx

theorem sendPendingTasks_C1 (cfg : SubmitterConfig) (now : Int) (os : List Bool)
    (q : ClientQueue) (hcons : entriesConsistent q) :
    List.Sublist
      (pushedCounters (SendPendingTasks cfg now os q).2 ++
        entryCounters (SendPendingTasks cfg now os q).1)
      (entryCounters q) ∧
    entriesConsistent (SendPendingTasks cfg now os q).1 := by
  cases hc : q.rpc_client with
  | none =>
    cases hr : (q.state == ActorState.RESTARTING && q.fail_if_actor_unreachable) with
    | true =>
      rw [sendPendingTasks_no_client_fail cfg now os q hc hr]
      obtain ⟨a, w, c2, r, p, hfr, hent⟩ :=
        handleFailedReplies_frame cfg now (Status.IOError "The actor is temporarily unavailable.")
          (drainReady q.actor_submit_queue.entries).1 os
          { q with actor_submit_queue :=
              { q.actor_submit_queue with entries := (drainReady q.actor_submit_queue.entries).2 } }
      have hents : (handleFailedReplies cfg now
          (Status.IOError "The actor is temporarily unavailable.")
          { q with actor_submit_queue :=
              { q.actor_submit_queue with entries := (drainReady q.actor_submit_queue.entries).2 } }
          (drainReady q.actor_submit_queue.entries).1 os).1.actor_submit_queue.entries =
          q.actor_submit_queue.entries.dropWhile (fun e => e.dependency_resolved) := by
        rw [hfr]
        show a.entries = _
        rw [hent]
        exact (drainReady_eq q.actor_submit_queue.entries).2
      constructor
      · rw [handleFailedReplies_no_push]
        show List.Sublist ([] ++ _) _
        rw [List.nil_append]
        show List.Sublist ((handleFailedReplies cfg now _ _ _ os).1.actor_submit_queue.entries.map _) _
        rw [hents]
        exact (List.dropWhile_sublist _).map _
      · intro e he
        rw [hents] at he
        exact hcons e ((List.dropWhile_sublist _).subset he)
    | false =>
      rw [sendPendingTasks_no_client_idle cfg now os q hc hr]
      exact ⟨List.Sublist.refl _, hcons⟩
  | some addr =>
    have main : ∀ q2 : ClientQueue, q2.actor_submit_queue = q.actor_submit_queue →
        entriesConsistent q2 →
        List.Sublist
          (pushedCounters (pushTasks
              { q2 with actor_submit_queue :=
                  { q2.actor_submit_queue with
                      entries := (drainReady q2.actor_submit_queue.entries).2 } }
              ((drainReady q2.actor_submit_queue.entries).1.map (fun s => (s, false)))).2 ++
            entryCounters (pushTasks
              { q2 with actor_submit_queue :=
                  { q2.actor_submit_queue with
                      entries := (drainReady q2.actor_submit_queue.entries).2 } }
              ((drainReady q2.actor_submit_queue.entries).1.map (fun s => (s, false)))).1)
          (entryCounters q2) ∧
        entriesConsistent (pushTasks
          { q2 with actor_submit_queue :=
              { q2.actor_submit_queue with
                  entries := (drainReady q2.actor_submit_queue.entries).2 } }
          ((drainReady q2.actor_submit_queue.entries).1.map (fun s => (s, false)))).1 := by
      intro q2 _ hcons2
      obtain ⟨i, hp⟩ := pushTasks_frame
        ((drainReady q2.actor_submit_queue.entries).1.map (fun s => (s, false)))
        { q2 with actor_submit_queue :=
            { q2.actor_submit_queue with entries := (drainReady q2.actor_submit_queue.entries).2 } }
      have hpush : pushedCounters (pushTasks
          { q2 with actor_submit_queue :=
              { q2.actor_submit_queue with
                  entries := (drainReady q2.actor_submit_queue.entries).2 } }
          ((drainReady q2.actor_submit_queue.entries).1.map (fun s => (s, false)))).2 =
          ((q2.actor_submit_queue.entries.takeWhile (fun e => e.dependency_resolved)).map
            (fun e => e.spec)).filterMap deliveredCounter := by
        rw [pushTasks_pushed, (drainReady_eq q2.actor_submit_queue.entries).1]
        simp only [List.filterMap_map]
        rfl
      have htk : ∀ e ∈ q2.actor_submit_queue.entries.takeWhile (fun x => x.dependency_resolved),
          e.counter = e.spec.actor_counter :=
        fun e he => hcons2 e ((List.takeWhile_sublist _).subset he)
      constructor
      · rw [hpush, hp]
        show List.Sublist (_ ++ ((drainReady q2.actor_submit_queue.entries).2.map _)) _
        rw [(drainReady_eq q2.actor_submit_queue.entries).2]
        have hsplit : entryCounters q2 =
            (q2.actor_submit_queue.entries.takeWhile (fun e => e.dependency_resolved)).map
              (fun e => e.counter) ++
            (q2.actor_submit_queue.entries.dropWhile (fun e => e.dependency_resolved)).map
              (fun e => e.counter) := by
          show q2.actor_submit_queue.entries.map _ = _
          rw [← List.map_append]
          rw [List.takeWhile_append_dropWhile]
        rw [hsplit]
        exact (deliveredCounter_sublist _ htk).append (List.Sublist.refl _)
      · intro e he
        rw [hp] at he
        show e.counter = e.spec.actor_counter
        have : e ∈ q2.actor_submit_queue.entries.dropWhile (fun x => x.dependency_resolved) := by
          simpa [(drainReady_eq q2.actor_submit_queue.entries).2] using he
        exact hcons2 e ((List.dropWhile_sublist _).subset this)
    cases hk : q.pending_force_kill with
    | some request =>
      rw [sendPendingTasks_client_kill cfg now os q addr request hc hk]
      have h2 := main { q with pending_force_kill := none } rfl hcons
      constructor
      · show List.Sublist (pushedCounters (Effect.killActorRpc request :: _) ++ _) _
        have hkill : pushedCounters (Effect.killActorRpc request ::
            (pushTasks
              { q with
                  pending_force_kill := none
                  actor_submit_queue :=
                    { q.actor_submit_queue with
                        entries := (drainReady q.actor_submit_queue.entries).2 } }
              ((drainReady q.actor_submit_queue.entries).1.map (fun s => (s, false)))).2) =
            pushedCounters (pushTasks
              { q with
                  pending_force_kill := none
                  actor_submit_queue :=
                    { q.actor_submit_queue with
                        entries := (drainReady q.actor_submit_queue.entries).2 } }
              ((drainReady q.actor_submit_queue.entries).1.map (fun s => (s, false)))).2 := rfl
        rw [hkill]
        exact h2.1
      · exact h2.2
    | none =>
      rw [sendPendingTasks_client_nokill cfg now os q addr hc hk]
      exact main q rfl hcons

/-- Composition used by the reconnect path: a dispatch followed by a fold
of failure replies pushes a filtered prefix of the queue and keeps the
rest. -/
theorem sendThenFail_C1 (cfg : SubmitterConfig) (now now2 : Int) (os os2 : List Bool)
    (st : Status) (ms : List TaskSpecification) (q1 : ClientQueue)
    (hcons1 : entriesConsistent q1) :
    List.Sublist
      (pushedCounters (SendPendingTasks cfg now os q1).2 ++
        entryCounters (handleFailedReplies cfg now2 st
          (SendPendingTasks cfg now os q1).1 ms os2).1)
      (entryCounters q1) ∧
    entriesConsistent (handleFailedReplies cfg now2 st
      (SendPendingTasks cfg now os q1).1 ms os2).1 := by
  obtain ⟨hsub, hcons2⟩ := sendPendingTasks_C1 cfg now os q1 hcons1
  obtain ⟨a, w, c, r, p, hf, he⟩ :=
    handleFailedReplies_frame cfg now2 st ms os2 (SendPendingTasks cfg now os q1).1
  have hent : entryCounters (handleFailedReplies cfg now2 st
      (SendPendingTasks cfg now os q1).1 ms os2).1 =
      entryCounters (SendPendingTasks cfg now os q1).1 := by
    show (handleFailedReplies cfg now2 st
      (SendPendingTasks cfg now os q1).1 ms os2).1.actor_submit_queue.entries.map _ = _
    rw [hf]
    show a.entries.map _ = _
    rw [he]
    rfl
  refine ⟨?_, ?_⟩
  · rw [hent]
    exact hsub
  · intro e hein
    rw [hf] at hein
    have : e ∈ (SendPendingTasks cfg now os q1).1.actor_submit_queue.entries := by
      rw [← he]
      exact hein
    exact hcons2 e this

theorem handleDependencyResolution_C1 (cfg : SubmitterConfig) (now : Int)
    (sp tid : Nat) (st : Status) (os : List Bool) (q : ClientQueue)
    (hcons : entriesConsistent q) :
    List.Sublist
      (pushedCounters (HandleDependencyResolution cfg now sp tid st os q).2 ++
        entryCounters (HandleDependencyResolution cfg now sp tid st os q).1)
      (entryCounters q) ∧
    entriesConsistent (HandleDependencyResolution cfg now sp tid st os q).1 := by
  simp only [HandleDependencyResolution]
  split_ifs
  · have hcons2 : entriesConsistent
        { q with actor_submit_queue := q.actor_submit_queue.markDependencyResolved sp } :=
      fun e he => markDependencyResolved_consistent q.actor_submit_queue sp hcons e he
    obtain ⟨hsub, hcons3⟩ := sendPendingTasks_C1 cfg now os
      { q with actor_submit_queue := q.actor_submit_queue.markDependencyResolved sp } hcons2
    have hcnt : entryCounters
        { q with actor_submit_queue := q.actor_submit_queue.markDependencyResolved sp } =
        entryCounters q :=
      markDependencyResolved_counters q.actor_submit_queue sp
    constructor
    · show List.Sublist (pushedCounters (Effect.markDependenciesResolved tid ::
        (SendPendingTasks cfg now os _).2) ++ _) _
      have hmd : pushedCounters (Effect.markDependenciesResolved tid ::
          (SendPendingTasks cfg now os
            { q with actor_submit_queue := q.actor_submit_queue.markDependencyResolved sp }).2) =
          pushedCounters (SendPendingTasks cfg now os
            { q with actor_submit_queue := q.actor_submit_queue.markDependencyResolved sp }).2 := rfl
      rw [hmd, ← hcnt]
      exact hsub
    · exact hcons3
  · constructor
    · show List.Sublist ([] ++ (q.actor_submit_queue.entries.filter _).map _) _
      rw [List.nil_append]
      exact (List.filter_sublist q.actor_submit_queue.entries).map _
    · intro e he
      exact hcons e ((List.filter_sublist q.actor_submit_queue.entries).subset he)
  · exact ⟨List.Sublist.refl _, hcons⟩

theorem deliverReply_C1 (cfg : SubmitterConfig) (now : Int) (tid : Nat) (st : Status)
    (iae wr : Bool) (q : ClientQueue) (hcons : entriesConsistent q) :
    List.Sublist
      (pushedCounters (DeliverReply cfg now tid st iae wr q).2 ++
        entryCounters (DeliverReply cfg now tid st iae wr q).1)
      (entryCounters q) ∧
    entriesConsistent (DeliverReply cfg now tid st iae wr q).1 := by
  simp only [DeliverReply]
  cases hf : q.inflight_task_callbacks.find? (fun e => e.1 == tid) with
  | none => exact ⟨List.Sublist.refl _, hcons⟩
  | some entry =>
    obtain ⟨a, w, c, r, p, hh, he⟩ := handleReply_frame cfg now st iae entry.2.1 wr
      { q with inflight_task_callbacks :=
          q.inflight_task_callbacks.eraseP (fun e => e.1 == tid) }
    have hent : entryCounters (HandlePushTaskReply cfg now st iae entry.2.1 wr
        { q with inflight_task_callbacks :=
            q.inflight_task_callbacks.eraseP (fun e => e.1 == tid) }).1 = entryCounters q := by
      show (HandlePushTaskReply cfg now st iae entry.2.1 wr _).1.actor_submit_queue.entries.map _ = _
      rw [hh]
      show a.entries.map _ = _
      rw [he]
      rfl
    constructor
    · rw [handleReply_no_push, hent]
      exact List.Sublist.refl _
    · intro e hein
      rw [hh] at hein
      have : e ∈ q.actor_submit_queue.entries := by
        have h2 := he ▸ hein
        exact h2
      exact hcons e this

theorem killActor_C1 (cfg : SubmitterConfig) (now : Int) (fk nr : Bool)
    (os : List Bool) (q : ClientQueue) (hcons : entriesConsistent q) :
    List.Sublist
      (pushedCounters (KillActor cfg now fk nr os q).2 ++
        entryCounters (KillActor cfg now fk nr os q).1)
      (entryCounters q) ∧
    entriesConsistent (KillActor cfg now fk nr os q).1 := by
  simp only [KillActor]
  cases hp : q.pending_force_kill with
  | none =>
    exact sendPendingTasks_C1 cfg now os
      { q with pending_force_kill := some (KillActorRequest.mk fk nr) } hcons
  | some prev =>
    cases fk with
    | true =>
      exact sendPendingTasks_C1 cfg now os
        { q with pending_force_kill := some (KillActorRequest.mk true (prev.no_restart || nr)) }
        hcons
    | false => exact sendPendingTasks_C1 cfg now os q hcons

theorem cancelTask_C1 (spec : TaskSpecification) (nc : Bool) (q : ClientQueue)
    (hcons : entriesConsistent q) :
    List.Sublist
      (pushedCounters (CancelTask spec nc q).2.1 ++
        entryCounters (CancelTask spec nc q).1)
      (entryCounters q) ∧
    entriesConsistent (CancelTask spec nc q).1 := by
  simp only [CancelTask]
  split_ifs <;>
    first
      | exact ⟨List.Sublist.refl _, hcons⟩
      | (cases q.rpc_client <;> exact ⟨List.Sublist.refl _, hcons⟩)
      | (constructor
         · show List.Sublist ([] ++ (q.actor_submit_queue.entries.filter _).map _) _
           rw [List.nil_append]
           exact (List.filter_sublist q.actor_submit_queue.entries).map _
         · intro e he
           exact hcons e ((List.filter_sublist q.actor_submit_queue.entries).subset he))

theorem handleFailedReplies_entries (cfg : SubmitterConfig) (now : Int) (st : Status)
    (ms : List TaskSpecification) (os : List Bool) (q2 : ClientQueue) :
    (handleFailedReplies cfg now st q2 ms os).1.actor_submit_queue.entries =
      q2.actor_submit_queue.entries := by
  obtain ⟨a, w, c, r, p, hf, he⟩ := handleFailedReplies_frame cfg now st ms os q2
  rw [hf]
  exact he

theorem pushedCounters_flatMap_fail (ids : List Nat) (et : ErrorType)
    (st : Option Status) (info : Option RayErrorInfo) (fi : Bool) :
    pushedCounters (ids.flatMap (fun task_id =>
      [Effect.markTaskCanceled task_id,
       Effect.cancelDependencyResolution task_id,
       Effect.failOrRetryPendingTask task_id et st info true fi])) = [] := by
  induction ids with
  | nil => rfl
  | cons x xs ih =>
    rw [List.flatMap_cons, pushedCounters_append, ih]
    rfl

theorem pushedCounters_map_nonpush {α : Type} (l : List α) (f : α → Effect)
    (h : ∀ x, (match f x with
      | Effect.pushActorTask s _ _ => deliveredCounter s
      | _ => none) = (none : Option Nat)) :
    pushedCounters (l.map f) = [] := by
  rw [pushedCounters, List.filterMap_map]
  exact List.filterMap_eq_nil_iff.mpr (fun a _ => h a)

theorem handleFailedReplies_entryCounters (cfg : SubmitterConfig) (now : Int)
    (st : Status) (ms : List TaskSpecification) (os : List Bool) (q2 : ClientQueue) :
    entryCounters (handleFailedReplies cfg now st q2 ms os).1 = entryCounters q2 := by
  show (handleFailedReplies cfg now st q2 ms os).1.actor_submit_queue.entries.map _ = _
  rw [handleFailedReplies_entries]
  rfl

theorem disconnectActor_C1 (cfg : SubmitterConfig) (now : Int) (r : Int) (d : Bool)
    (cause : ActorDeathCause) (os : List Bool) (q : ClientQueue)
    (hcons : entriesConsistent q) :
    List.Sublist
      (pushedCounters (DisconnectActor cfg now r d cause os q).2 ++
        entryCounters (DisconnectActor cfg now r d cause os q).1)
      (entryCounters q) ∧
    entriesConsistent (DisconnectActor cfg now r d cause os q).1 := by
  simp only [DisconnectActor, DisconnectRpcClient]
  split_ifs
  · exact ⟨List.Sublist.refl _, hcons⟩
  · exact ⟨List.Sublist.refl _, hcons⟩
  all_goals dsimp only
  all_goals constructor
  · rw [pushedCounters_append, pushedCounters_append, pushedCounters_append,
      handleFailedReplies_no_push, pushedCounters_flatMap_fail,
      pushedCounters_map_nonpush _ _ (fun x => rfl),
      handleFailedReplies_entryCounters]
    exact List.nil_sublist _
  · intro e he
    rw [handleFailedReplies_entries] at he
    exact absurd he (List.not_mem_nil e)
  · rw [pushedCounters_append, handleFailedReplies_no_push,
      handleFailedReplies_entryCounters]
    exact List.Sublist.refl _
  · intro e he
    rw [handleFailedReplies_entries] at he
    exact hcons e he
  · rw [pushedCounters_append, handleFailedReplies_no_push,
      handleFailedReplies_entryCounters]
    exact List.Sublist.refl _
  · intro e he
    rw [handleFailedReplies_entries] at he
    exact hcons e he

theorem resendOutOfOrderTasks_entries (q : ClientQueue) :
    (ResendOutOfOrderTasks q).1.actor_submit_queue.entries =
      q.actor_submit_queue.entries := by
  cases hc : q.rpc_client with
  | none => rw [resendOutOfOrderTasks_none q hc]
  | some addr =>
    rw [resendOutOfOrderTasks_some q addr hc]
    obtain ⟨i, hp⟩ := pushTasks_frame
      (q.actor_submit_queue.popAllOutOfOrderCompletedTasks.1.map
        (fun ct => ({ ct.2 with skip_execution := true }, true)))
      { q with actor_submit_queue := q.actor_submit_queue.popAllOutOfOrderCompletedTasks.2 }
    rw [hp]
    rfl

/-- Composition used by the reconnect path: a prelude with no pushes, the
out-of-order replay, a dispatch, and a fold of failure replies together
push a filtered prefix of the queue and keep the rest. -/
theorem resendSendFail_C1 (cfg : SubmitterConfig) (now now2 : Int) (st : Status)
    (ms : List TaskSpecification) (os : List Bool) (e0 : List Effect)
    (q1 : ClientQueue) (h0 : pushedCounters e0 = [])
    (hcons1 : entriesConsistent q1) :
    List.Sublist
      (pushedCounters (e0 ++ (ResendOutOfOrderTasks q1).2 ++
          (SendPendingTasks cfg now [] (ResendOutOfOrderTasks q1).1).2 ++
          (handleFailedReplies cfg now2 st
            (SendPendingTasks cfg now [] (ResendOutOfOrderTasks q1).1).1 ms os).2) ++
        entryCounters (handleFailedReplies cfg now2 st
          (SendPendingTasks cfg now [] (ResendOutOfOrderTasks q1).1).1 ms os).1)
      (entryCounters q1) ∧
    entriesConsistent (handleFailedReplies cfg now2 st
      (SendPendingTasks cfg now [] (ResendOutOfOrderTasks q1).1).1 ms os).1 := by
  have hr := resendOutOfOrderTasks_entries q1
  have hcons2 : entriesConsistent (ResendOutOfOrderTasks q1).1 := by
    intro e he
    rw [hr] at he
    exact hcons1 e he
  obtain ⟨hsub, hcons3⟩ :=
    sendThenFail_C1 cfg now now2 [] os st ms (ResendOutOfOrderTasks q1).1 hcons2
  have hec : entryCounters (ResendOutOfOrderTasks q1).1 = entryCounters q1 := by
    show (ResendOutOfOrderTasks q1).1.actor_submit_queue.entries.map _ = _
    rw [hr]
    rfl
  refine ⟨?_, hcons3⟩
  rw [pushedCounters_append, pushedCounters_append, pushedCounters_append, h0,
    resendOutOfOrderTasks_no_push, handleFailedReplies_no_push]
  simp only [List.nil_append, List.append_nil]
  rw [← hec]
  exact hsub

theorem connectActor_C1 (cfg : SubmitterConfig) (now : Int) (addr : Address)
    (r : Int) (os : List Bool) (q : ClientQueue) (hcons : entriesConsistent q) :
    List.Sublist
      (pushedCounters (ConnectActor cfg now addr r os q).2 ++
        entryCounters (ConnectActor cfg now addr r os q).1)
      (entryCounters q) ∧
    entriesConsistent (ConnectActor cfg now addr r os q).1 := by
  simp only [ConnectActor]
  split_ifs
  · exact ⟨List.Sublist.refl _, hcons⟩
  · exact ⟨List.Sublist.refl _, hcons⟩
  · exact ⟨List.Sublist.refl _, hcons⟩
  all_goals dsimp only
  · exact resendSendFail_C1 cfg now now _ _ os _ _ rfl (fun e he => hcons e he)
  · exact resendSendFail_C1 cfg now now _ _ os _ _ rfl (fun e he => hcons e he)

theorem submitTask_C1 (spec : TaskSpecification) (q : ClientQueue)
    (hcons : entriesConsistent q)
    (hlt : ∀ c ∈ entryCounters q, c < spec.actor_counter) :
    pushedCounters (SubmitTask spec q).2.1 = [] ∧
    (entryCounters (SubmitTask spec q).1 = entryCounters q ∨
     entryCounters (SubmitTask spec q).1 = entryCounters q ++ [spec.actor_counter]) ∧
    entriesConsistent (SubmitTask spec q).1 := by
  have hemp : q.actor_submit_queue.emplace spec.actor_counter spec =
      some { q.actor_submit_queue with
        entries := q.actor_submit_queue.entries ++
          [{ counter := spec.actor_counter, spec := spec, dependency_resolved := false }] } := by
    rw [ActorSubmitQueue.emplace,
      insertEntry_append _ _ (fun x hx => hlt x.counter (List.mem_map_of_mem _ hx))]
    rfl
  simp only [SubmitTask, hemp]
  split_ifs
  · exact ⟨rfl, Or.inl rfl, hcons⟩
  · refine ⟨rfl, Or.inr ?_, ?_⟩
    · show List.map _ (q.actor_submit_queue.entries ++ [_]) = _
      rw [List.map_append]
      rfl
    · intro e he
      rcases List.mem_append.mp he with h1 | h2
      · exact hcons e h1
      · rw [List.mem_singleton.mp h2]

theorem sweep_C1 (now : Int) (q : ClientQueue) (hcons : entriesConsistent q) :
    pushedCounters ((sweepQueue now q).2.map FailTaskWithError) = [] ∧
    entryCounters (sweepQueue now q).1 = entryCounters q ∧
    entriesConsistent (sweepQueue now q).1 :=
  ⟨pushedCounters_map_nonpush _ _ (fun _ => rfl), rfl, fun e he => hcons e he⟩

/-- Every event other than a submission pushes a filtered prefix of the
queue and keeps the rest, so the pushed counters followed by the surviving
keys form a sublist of the previous keys. -/
theorem step_C1_nonsubmit (cfg : SubmitterConfig) (q : ClientQueue) (e : Event)
    (hcons : entriesConsistent q) (hns : ∀ spec, e ≠ Event.submit spec) :
    List.Sublist (pushedCounters (step cfg q e).2 ++ entryCounters (step cfg q e).1)
      (entryCounters q) ∧
    entriesConsistent (step cfg q e).1 := by
  cases e with
  | submit spec => exact absurd rfl (hns spec)
  | resolve sp tid st now os => exact handleDependencyResolution_C1 cfg now sp tid st os q hcons
  | connect addr r now os => exact connectActor_C1 cfg now addr r os q hcons
  | disconnect r d cause now os => exact disconnectActor_C1 cfg now r d cause os q hcons
  | reply tid st iae wr now => exact deliverReply_C1 cfg now tid st iae wr q hcons
  | kill fk nr now os => exact killActor_C1 cfg now fk nr os q hcons
  | cancel spec nc => exact cancelTask_C1 spec nc q hcons
  | sweep now =>
    obtain ⟨h1, h2, h3⟩ := sweep_C1 now q hcons
    refine ⟨?_, h3⟩
    show List.Sublist (pushedCounters ((sweepQueue now q).2.map FailTaskWithError) ++
      entryCounters (sweepQueue now q).1) (entryCounters q)
    rw [h1, List.nil_append, h2]

theorem run_C1_step (cfg : SubmitterConfig) (es : List Event) (q : ClientQueue)
    (P : List Nat) (e : Event)
    (hstep : List.Sublist
      (pushedCounters (step cfg q e).2 ++ entryCounters (step cfg q e).1)
      (entryCounters q))
    (hconsstep : entriesConsistent (step cfg q e).1)
    (hsub : List.Sublist (entryCounters q) P)
    (hpair : List.Pairwise (· < ·) (P ++ submittedCounters es))
    (ih : ∀ (q2 : ClientQueue) (P2 : List Nat),
      entriesConsistent q2 → List.Sublist (entryCounters q2) P2 →
      List.Pairwise (· < ·) (P2 ++ submittedCounters es) →
      List.Sublist
        (pushedCounters (run cfg q2 es).2 ++ entryCounters (run cfg q2 es).1)
        (P2 ++ submittedCounters es) ∧
      entriesConsistent (run cfg q2 es).1) :
    List.Sublist
      (pushedCounters ((step cfg q e).2 ++ (run cfg (step cfg q e).1 es).2) ++
        entryCounters (run cfg (step cfg q e).1 es).1)
      (P ++ submittedCounters es) ∧
    entriesConsistent (run cfg (step cfg q e).1 es).1 := by
  have htot : List.Sublist
      (pushedCounters (step cfg q e).2 ++ entryCounters (step cfg q e).1) P :=
    hstep.trans hsub
  obtain ⟨P1, P2, hP, h1, h2⟩ := List.append_sublist_iff.mp htot
  have hpair2 : List.Pairwise (· < ·) (P2 ++ submittedCounters es) := by
    refine hpair.sublist ?_
    rw [hP, List.append_assoc]
    exact List.sublist_append_right P1 _
  obtain ⟨hrun, hcons2⟩ := ih (step cfg q e).1 P2 hconsstep h2 hpair2
  refine ⟨?_, hcons2⟩
  rw [pushedCounters_append, List.append_assoc, hP, List.append_assoc]
  exact h1.append hrun

/-- Over any trace, the counters pushed to the transport followed by the
keys still queued form a sublist of the prior keys `P` joined with the
trace's submissions, provided those are jointly strictly increasing. -/
theorem run_C1 (cfg : SubmitterConfig) :
    ∀ (es : List Event) (q : ClientQueue) (P : List Nat),
      entriesConsistent q →
      List.Sublist (entryCounters q) P →
      List.Pairwise (· < ·) (P ++ submittedCounters es) →
      List.Sublist
        (pushedCounters (run cfg q es).2 ++ entryCounters (run cfg q es).1)
        (P ++ submittedCounters es) ∧
      entriesConsistent (run cfg q es).1 := by
  intro es
  induction es with
  | nil =>
    intro q P hcons hsub _
    constructor
    · show List.Sublist (entryCounters q) (P ++ [])
      rw [List.append_nil]
      exact hsub
    · exact hcons
  | cons e es ih =>
    intro q P hcons hsub hpair
    cases e with
    | submit spec =>
      have hpair1 : List.Pairwise (· < ·)
          (P ++ (spec.actor_counter :: submittedCounters es)) := hpair
      have hlt : ∀ c ∈ entryCounters q, c < spec.actor_counter := by
        intro c hc
        exact (List.pairwise_append.mp hpair1).2.2 c (hsub.subset hc)
          spec.actor_counter (List.mem_cons_self _ _)
      obtain ⟨hpc, hec, hcons1⟩ := submitTask_C1 spec q hcons hlt
      have hsub1 : List.Sublist (entryCounters (SubmitTask spec q).1)
          (P ++ [spec.actor_counter]) := by
        rcases hec with h | h
        · rw [h]
          exact hsub.trans (List.sublist_append_left P _)
        · rw [h]
          exact hsub.append (List.Sublist.refl _)
      have hpair2 : List.Pairwise (· < ·)
          ((P ++ [spec.actor_counter]) ++ submittedCounters es) := by
        rw [List.append_assoc]
        exact hpair1
      obtain ⟨hrun, hcons2⟩ := ih (SubmitTask spec q).1 (P ++ [spec.actor_counter])
        hcons1 hsub1 hpair2
      constructor
      · show List.Sublist
          (pushedCounters ((SubmitTask spec q).2.1 ++
              (run cfg (SubmitTask spec q).1 es).2) ++
            entryCounters (run cfg (SubmitTask spec q).1 es).1)
          (P ++ ([spec.actor_counter] ++ submittedCounters es))
        rw [pushedCounters_append, hpc, List.nil_append, ← List.append_assoc]
        exact hrun
      · exact hcons2
    | resolve sp tid st now os =>
      have h := step_C1_nonsubmit cfg q (Event.resolve sp tid st now os) hcons
        (fun s hh => Event.noConfusion hh)
      exact run_C1_step cfg es q P _ h.1 h.2 hsub hpair ih
    | connect addr r now os =>
      have h := step_C1_nonsubmit cfg q (Event.connect addr r now os) hcons
        (fun s hh => Event.noConfusion hh)
      exact run_C1_step cfg es q P _ h.1 h.2 hsub hpair ih
    | disconnect r d cause now os =>
      have h := step_C1_nonsubmit cfg q (Event.disconnect r d cause now os) hcons
        (fun s hh => Event.noConfusion hh)
      exact run_C1_step cfg es q P _ h.1 h.2 hsub hpair ih
    | reply tid st iae wr now =>
      have h := step_C1_nonsubmit cfg q (Event.reply tid st iae wr now) hcons
        (fun s hh => Event.noConfusion hh)
      exact run_C1_step cfg es q P _ h.1 h.2 hsub hpair ih
    | kill fk nr now os =>
      have h := step_C1_nonsubmit cfg q (Event.kill fk nr now os) hcons
        (fun s hh => Event.noConfusion hh)
      exact run_C1_step cfg es q P _ h.1 h.2 hsub hpair ih
    | cancel spec nc =>
      have h := step_C1_nonsubmit cfg q (Event.cancel spec nc) hcons
        (fun s hh => Event.noConfusion hh)
      exact run_C1_step cfg es q P _ h.1 h.2 hsub hpair ih
    | sweep now =>
      have h := step_C1_nonsubmit cfg q (Event.sweep now) hcons
        (fun s hh => Event.noConfusion hh)
      exact run_C1_step cfg es q P _ h.1 h.2 hsub hpair ih

/-- C1.  Order preservation: over any event trace from a fresh queue whose
submitted `actor_counter` values are strictly increasing, the sequence of
counters handed to the transport via `PushActorTask` (excluding
skip-execution pushes) is a sublist of the submitted sequence — hence
itself strictly increasing — regardless of the order in which dependency
resolutions complete. -/
theorem claim_C1_order_preservation (cfg : SubmitterConfig) (a : Nat) (m : Int)
    (f : Bool) (es : List Event)
    (hpair : List.Pairwise (· < ·) (submittedCounters es)) :
    List.Sublist (pushedCounters (run cfg (initialQueue a m f) es).2)
      (submittedCounters es) ∧
    List.Pairwise (· < ·) (pushedCounters (run cfg (initialQueue a m f) es).2) := by
  have h := run_C1 cfg es (initialQueue a m f) []
    (fun e he => absurd he (List.not_mem_nil e))
    (List.nil_sublist [])
    hpair
  have hD : List.Sublist (pushedCounters (run cfg (initialQueue a m f) es).2)
      (submittedCounters es) :=
    (List.sublist_append_left _ _).trans h.1
  exact ⟨hD, hpair.sublist hD⟩

/-- On the trace `esC1` the submitted counters `[0, 1]` are strictly
increasing and both dispatches occur in order. -/
theorem claim_C1_witness :
    List.Pairwise (· < ·) (submittedCounters esC1) ∧
    (List.Sublist (pushedCounters (run cfg0 (initialQueue 7 8 false) esC1).2)
        (submittedCounters esC1) ∧
      List.Pairwise (· < ·)
        (pushedCounters (run cfg0 (initialQueue 7 8 false) esC1).2)) :=
  ⟨by decide, claim_C1_order_preservation cfg0 7 8 false esC1 (by decide)⟩

end RaySubmitter
